import Mathlib

/-!
# KRDC remote view and RDP backend: a shallow embedding

The development follows four source files:

* `kremoteview.h`: the connection status enumeration and the contract of
  `KRemoteView::setStatus`;
* `rdp/rdphostpreferences.cpp`: the keyboard layout table, `keymap2int`,
  `int2keymap`, and the per-host preference accessors;
* `rdp/krdpview.cpp`: the RDP view (`KRdpView`), its constructor, `start`,
  and the handlers of the external process;
* `rdp/rdpprefs.ui.h`: the pre-connect settings form.

Strings are Lean strings, C `int`s are `Int` (no arithmetic that could
overflow is performed on them), signals and message boxes are recorded in a
trace, oldest entry first.
-/

namespace KRDC

/-! ## kremoteview.h -/

/-- State of the connection, `KRemoteView::RemoteStatus`. -/
inductive RemoteStatus where
  | Connecting
  | Authenticating
  | Preparing
  | Connected
  | Disconnecting
  | Disconnected
  deriving DecidableEq, Repr

namespace RemoteStatus

/-- The enumerator values of `RemoteStatus`. -/
def toInt : RemoteStatus → Int
  | Connecting => 0
  | Authenticating => 1
  | Preparing => 2
  | Connected => 3
  | Disconnecting => -1
  | Disconnected => -2

/-- The forward sequence Connecting, Authenticating, Preparing, Connected. -/
def forwardSequence : List RemoteStatus :=
  [Connecting, Authenticating, Preparing, Connected]

/-- A status of the forward sequence is one with a non-negative value. -/
def isForward (s : RemoteStatus) : Bool :=
  decide (0 ≤ s.toInt)

end RemoteStatus

/-- The blocking notices shown with `KMessageBox::error` in `krdpview.cpp`. -/
inductive Notice where
  /-- The notice "Could not start rdesktop; make sure rdesktop is properly
  installed." with caption "rdesktop Failure". -/
  | launchFailure
  /-- The notice "Connection attempt to host failed." with caption
  "Connection Failure". -/
  | connectionFailure
  /-- The notice "The version of rdesktop you are using (%1) is too old:
  rdesktop 1.3.2 or greater is required." with caption "rdesktop Failure";
  the argument is the text substituted for %1. -/
  | versionTooOld (clientVersion : String)
  deriving DecidableEq, Repr

/-- What an observer of the view sees: the signals of `KRemoteView` that the
code emits, and the message boxes it opens. -/
inductive Event where
  | statusChanged (s : RemoteStatus)
  | connected
  | disconnected
  | disconnectedError
  | changeSize (w h : Int)
  | messageBox (n : Notice)
  deriving DecidableEq, Repr

/-- The part of `KRemoteView` that the status machine touches: the protected
member `m_status`, and the trace of what has been emitted so far. -/
structure KRemoteView where
  m_status : RemoteStatus
  trace : List Event
  deriving DecidableEq, Repr

namespace KRemoteView

/-- The accessor `KRemoteView::status()`. -/
def status (v : KRemoteView) : RemoteStatus :=
  v.m_status

/-- Modelled from the spec: the body of `KRemoteView::setStatus`, which is
declared in `kremoteview.h` but defined in a file that is not part of the
sources at hand. This is the list of statuses the view passes through, in
order, when `s` is requested in status `cur`.

* Any state may transition directly to Disconnected.
* Any state except Disconnected may transition to Disconnecting.
* Disconnected may transition to Connecting (restart), and from there
  forward.
* Otherwise the walk goes through the forward sequence one status at a
  time; a backward move first passes through Disconnected and restarts.

The text says that Disconnected requested in any state, Disconnected
included, gives one notification. Three cases are left open by the text and
are fixed here as follows: requesting Disconnecting in Disconnected, and
requesting the current status again when it is not Disconnected, pass
through nothing; a forward status requested in Disconnecting is reached
through Disconnected, the only transition the rules allow out of
Disconnecting. -/
def transitionPath (cur s : RemoteStatus) : List RemoteStatus :=
  match s with
  | .Disconnected => [.Disconnected]
  | .Disconnecting =>
    if cur = .Disconnected ∨ cur = .Disconnecting then [] else [.Disconnecting]
  | _ =>
    if cur.isForward then
      if cur.toInt < s.toInt then
        RemoteStatus.forwardSequence.filter
          (fun t => decide (cur.toInt < t.toInt ∧ t.toInt ≤ s.toInt))
      else if cur = s then
        []
      else
        .Disconnected ::
          RemoteStatus.forwardSequence.filter (fun t => decide (t.toInt ≤ s.toInt))
    else if cur = .Disconnected then
      RemoteStatus.forwardSequence.filter (fun t => decide (t.toInt ≤ s.toInt))
    else
      .Disconnected ::
        RemoteStatus.forwardSequence.filter (fun t => decide (t.toInt ≤ s.toInt))

/-- Modelled from the spec: `KRemoteView::setStatus` (body not among the
sources). The view enters each status of `transitionPath` in turn, emitting
one `statusChanged` per status entered. -/
def setStatus (v : KRemoteView) (s : RemoteStatus) : KRemoteView :=
  (transitionPath v.m_status s).foldl
    (fun w t => { m_status := t, trace := w.trace ++ [Event.statusChanged t] }) v

/-- The statuses carried by the `statusChanged` signals of a trace. -/
def statusNotifications : List Event → List RemoteStatus
  | [] => []
  | Event.statusChanged s :: es => s :: statusNotifications es
  | _ :: es => statusNotifications es

end KRemoteView

/-! ## rdp/rdphostpreferences.cpp -/

/-- The table `keymaps` of keyboard layout codes. -/
def keymaps : List String :=
  ["ar", "cs", "da", "de", "de-ch", "en-dv", "en-gb", "en-us", "es", "et",
   "fi", "fo", "fr", "fr-be", "fr-ca", "fr-ch", "he", "hr", "hu", "is",
   "it", "ja", "ko", "lt", "lv", "mk", "nl", "nl-be", "no", "pl",
   "pt", "pt-br", "ru", "sl", "sv", "th", "tr"]

/-- The constant `defaultKeymap`, the index of "en-us". -/
def defaultKeymap : Int := 7

/-- Backward scan of `QStringList::lastIndexOf`: looks at the indices below
`n`, from the highest down, and returns the first one that holds `x`, or -1. -/
def lastIndexOfBelow (l : List String) (x : String) : Nat → Int
  | 0 => -1
  | n + 1 => if l.get? n = some x then Int.ofNat n else lastIndexOfBelow l x n

/-- The library call `QStringList::lastIndexOf(x)`, searching the whole list. -/
def lastIndexOf (l : List String) (x : String) : Int :=
  lastIndexOfBelow l x l.length

/-- The library call `QStringList::at(i)`. Qt leaves an index out of range
undefined; every call below is made with an index in range. -/
def stringListAt (l : List String) (i : Int) : String :=
  (l.get? i.toNat).getD ""

/-- The function `keymap2int`. -/
def keymap2int (keymap : String) : Int :=
  let index := lastIndexOf keymaps keymap
  if index = -1 then defaultKeymap else index

/-- The function `int2keymap`. -/
def int2keymap (layout : Int) : String :=
  if layout ≥ 0 ∧ layout < Int.ofNat keymaps.length then
    stringListAt keymaps layout
  else
    stringListAt keymaps defaultKeymap

/-- The configuration group `m_configGroup`, restricted to its integer
entries: a list of key and value pairs with at most one pair per key. -/
structure KConfigGroup where
  entries : List (String × Int)
  deriving DecidableEq, Repr

namespace KConfigGroup

/-- The library call `KConfigGroup::writeEntry(key, value)`. -/
def writeEntry (g : KConfigGroup) (key : String) (value : Int) : KConfigGroup :=
  { entries := (key, value) :: g.entries.filter (fun e => decide (e.1 ≠ key)) }

/-- The library call `KConfigGroup::readEntry(key, default)`. -/
def readEntry (g : KConfigGroup) (key : String) (dflt : Int) : Int :=
  match g.entries.find? (fun e => decide (e.1 = key)) with
  | some e => e.2
  | none => dflt

end KConfigGroup

/-- The acceleration modes named by the switch of `updateColorDepth`. -/
inductive Acceleration where
  | Auto
  | ForceGraphicsPipeline
  | ForceRemoteFx
  | Disabled
  deriving DecidableEq, Repr

/-- The resolution presets named by the switch of `updateWidthHeight`. -/
inductive Resolution where
  | Small
  | Medium
  | Large
  | MatchWindow
  | MatchScreen
  | Custom
  deriving DecidableEq, Repr

/-- A combo box, as far as the code reads and writes it. -/
structure QComboBox where
  currentIndex : Int
  enabled : Bool
  deriving DecidableEq, Repr

/-- A spin box, as far as the code reads and writes it. -/
structure QSpinBox where
  value : Int
  enabled : Bool
  deriving DecidableEq, Repr

/-- The widgets of the form `rdpUi` that the functions below touch. The
colour-depth selector is filled by the form description, so index 0 names
its first item. -/
structure RdpUi where
  kcfg_Height : QSpinBox
  kcfg_Width : QSpinBox
  kcfg_Resolution : QComboBox
  kcfg_Acceleration : QComboBox
  kcfg_ColorDepth : QComboBox
  kcfg_KeyboardLayout : QComboBox
  heightLabel : Bool
  widthLabel : Bool
  deriving DecidableEq, Repr

/-- The object `RdpHostPreferences`: its configuration group and its form. -/
structure RdpHostPreferences where
  m_configGroup : KConfigGroup
  rdpUi : RdpUi
  deriving DecidableEq, Repr

namespace RdpHostPreferences

/-- The method `setKeyboardLayout`. The argument is `none` for a null
`QString`, which the method ignores. -/
def setKeyboardLayout (p : RdpHostPreferences) (keyboardLayout : Option String) :
    RdpHostPreferences :=
  match keyboardLayout with
  | none => p
  | some k =>
    { p with m_configGroup := p.m_configGroup.writeEntry "keyboardLayout" (keymap2int k) }

/-- The method `keyboardLayout`. The argument stands for the application
default `Settings::keyboardLayout()`, which `settings.h` supplies. -/
def keyboardLayout (settingsKeyboardLayout : Int) (p : RdpHostPreferences) : String :=
  int2keymap (p.m_configGroup.readEntry "keyboardLayout" settingsKeyboardLayout)

/-- The method `updateColorDepth`. -/
def updateColorDepth (p : RdpHostPreferences) (acceleration : Acceleration) :
    RdpHostPreferences :=
  match acceleration with
  | .ForceGraphicsPipeline | .ForceRemoteFx =>
    { p with rdpUi := { p.rdpUi with
        kcfg_ColorDepth := { enabled := false, currentIndex := 0 } } }
  | .Disabled | .Auto =>
    { p with rdpUi := { p.rdpUi with
        kcfg_ColorDepth := { p.rdpUi.kcfg_ColorDepth with enabled := true } } }

/-- The method `updateWidthHeight`. `screenSize` stands for the local `size`
of the MatchScreen case, the size of the screen times its pixel ratio, which
the windowing system supplies. -/
def updateWidthHeight (screenSize : Int × Int) (p : RdpHostPreferences)
    (resolution : Resolution) : RdpHostPreferences :=
  let setWidth (ui : RdpUi) (w : Int) : RdpUi :=
    { ui with kcfg_Width := { ui.kcfg_Width with value := w } }
  let setHeight (ui : RdpUi) (h : Int) : RdpUi :=
    { ui with kcfg_Height := { ui.kcfg_Height with value := h } }
  let ui : RdpUi :=
    match resolution with
    | .Small => setHeight (setWidth p.rdpUi 1280) 720
    | .Medium => setWidth (setHeight p.rdpUi 1600) 900
    | .Large => setWidth (setHeight p.rdpUi 1920) 1080
    | .MatchWindow => setWidth (setHeight p.rdpUi (-1)) (-1)
    | .MatchScreen => setHeight (setWidth p.rdpUi screenSize.1) screenSize.2
    | .Custom => p.rdpUi
  let enabled : Bool := decide (resolution = Resolution.Custom)
  { p with rdpUi :=
      { ui with
        kcfg_Height := { ui.kcfg_Height with enabled := enabled }
        kcfg_Width := { ui.kcfg_Width with enabled := enabled }
        heightLabel := enabled
        widthLabel := enabled } }

end RdpHostPreferences

/-! ## rdp/rdpprefs.ui.h -/

/-- The pre-connect settings form `RdpPrefs`: the widgets its methods touch. -/
structure RdpPrefs where
  spinWidth : QSpinBox
  spinHeight : QSpinBox
  widthLabel : Bool
  heightLabel : Bool
  cmbResolution : QComboBox
  cmbColorDepth : QComboBox
  cmbKbLayout : QComboBox
  cbShowPrefs : Bool
  cbUseKWallet : Bool
  deriving DecidableEq, Repr

namespace RdpPrefs

/-- The slot `resolutionChanged`. -/
def resolutionChanged (f : RdpPrefs) (selection : Int) : RdpPrefs :=
  let enable : Bool := decide (selection = 5)
  let f1 : RdpPrefs :=
    { f with
      spinWidth := { f.spinWidth with enabled := enable }
      spinHeight := { f.spinHeight with enabled := enable }
      widthLabel := enable
      heightLabel := enable }
  let setSize (w h : Int) : RdpPrefs :=
    { f1 with
      spinWidth := { f1.spinWidth with value := w }
      spinHeight := { f1.spinHeight with value := h } }
  if selection = 0 then setSize 640 480
  else if selection = 1 then setSize 800 600
  else if selection = 2 then setSize 1024 768
  else if selection = 3 then setSize 1280 1024
  else if selection = 4 then setSize 1600 1200
  else f1

/-- The method `setRdpWidth`. -/
def setRdpWidth (f : RdpPrefs) (w : Int) : RdpPrefs :=
  { f with spinWidth := { f.spinWidth with value := w } }

/-- The method `rdpWidth`. -/
def rdpWidth (f : RdpPrefs) : Int :=
  f.spinWidth.value

/-- The method `setRdpHeight`. -/
def setRdpHeight (f : RdpPrefs) (h : Int) : RdpPrefs :=
  { f with spinHeight := { f.spinHeight with value := h } }

/-- The method `rdpHeight`. -/
def rdpHeight (f : RdpPrefs) : Int :=
  f.spinHeight.value

/-- The method `colorDepth`. -/
def colorDepth (f : RdpPrefs) : Int :=
  if f.cmbColorDepth.currentIndex = 0 then 8
  else if f.cmbColorDepth.currentIndex = 1 then 16
  else if f.cmbColorDepth.currentIndex = 2 then 24
  else 8

/-- The method `setColorDepth`. -/
def setColorDepth (f : RdpPrefs) (depth : Int) : RdpPrefs :=
  if depth = 8 then { f with cmbColorDepth := { f.cmbColorDepth with currentIndex := 0 } }
  else if depth = 16 then { f with cmbColorDepth := { f.cmbColorDepth with currentIndex := 1 } }
  else if depth = 24 then { f with cmbColorDepth := { f.cmbColorDepth with currentIndex := 2 } }
  else f

/-- The method `setResolution`. -/
def setResolution (f : RdpPrefs) : RdpPrefs :=
  let pick (i : Int) : RdpPrefs :=
    { f with cmbResolution := { f.cmbResolution with currentIndex := i } }
  let f1 : RdpPrefs :=
    if f.rdpWidth = 640 ∧ f.rdpHeight = 480 then pick 0
    else if f.rdpWidth = 800 ∧ f.rdpHeight = 600 then pick 1
    else if f.rdpWidth = 1024 ∧ f.rdpHeight = 768 then pick 2
    else if f.rdpWidth = 1280 ∧ f.rdpHeight = 1024 then pick 3
    else if f.rdpWidth = 1600 ∧ f.rdpHeight = 1200 then pick 4
    else pick 5
  f1.resolutionChanged f1.cmbResolution.currentIndex

/-- The method `resolution`. -/
def resolution (f : RdpPrefs) : Int :=
  f.cmbResolution.currentIndex

/-- The method `setKbLayout`. -/
def setKbLayout (f : RdpPrefs) (i : Int) : RdpPrefs :=
  { f with cmbKbLayout := { f.cmbKbLayout with currentIndex := i } }

/-- The method `kbLayout`. -/
def kbLayout (f : RdpPrefs) : Int :=
  f.cmbKbLayout.currentIndex

/-- The method `setShowPrefs`. -/
def setShowPrefs (f : RdpPrefs) (b : Bool) : RdpPrefs :=
  { f with cbShowPrefs := b }

/-- The method `showPrefs`. -/
def showPrefs (f : RdpPrefs) : Bool :=
  f.cbShowPrefs

/-- The method `setUseKWallet`. -/
def setUseKWallet (f : RdpPrefs) (b : Bool) : RdpPrefs :=
  { f with cbUseKWallet := b }

/-- The method `useKWallet`. -/
def useKWallet (f : RdpPrefs) : Bool :=
  f.cbUseKWallet

end RdpPrefs

/-! ## rdp/krdpview.cpp -/

/-- Modelled from the spec: the host preference record `RdpHostPref` that
`start` reads and writes through accessors; its class is declared in
`rdphostpref.h`, which is not among the sources. Each accessor pair of the
code is one field. -/
structure RdpHostPref where
  askOnConnect : Bool
  width : Int
  height : Int
  colorDepth : Int
  layout : String
  useKWallet : Bool
  deriving DecidableEq, Repr

/-- The secret store `KWallet::Wallet`, as far as `start` uses it: whether it
is open, its folders, whether it lets a folder be created, the folder
selected with `setFolder`, and its passwords by folder and key. -/
structure Wallet where
  isOpen : Bool
  folders : List String
  canCreateFolder : Bool
  currentFolder : String
  passwords : List ((String × String) × String)
  deriving DecidableEq, Repr

namespace Wallet

/-- The library call `hasFolder`. -/
def hasFolder (w : Wallet) (f : String) : Bool :=
  decide (f ∈ w.folders)

/-- The library call `createFolder`: the outcome and the wallet afterwards. -/
def createFolder (w : Wallet) (f : String) : Bool × Wallet :=
  if w.canCreateFolder then (true, { w with folders := w.folders ++ [f] }) else (false, w)

/-- The library call `setFolder`. -/
def setFolder (w : Wallet) (f : String) : Wallet :=
  { w with currentFolder := f }

/-- The stored password of a key in the selected folder, if there is one. -/
def entry (w : Wallet) (key : String) : Option String :=
  (w.passwords.find? (fun e => decide (e.1 = (w.currentFolder, key)))).map (fun e => e.2)

/-- The library call `hasEntry`. -/
def hasEntry (w : Wallet) (key : String) : Bool :=
  (w.entry key).isSome

/-- The library call `readPassword(key, value)`: the new content of `value`. -/
def readPassword (w : Wallet) (key : String) (value : String) : String :=
  (w.entry key).getD value

/-- The library call `writePassword`. -/
def writePassword (w : Wallet) (key : String) (value : String) : Wallet :=
  { w with passwords :=
      ((w.currentFolder, key), value) ::
        w.passwords.filter (fun e => decide (e.1 ≠ (w.currentFolder, key))) }

end Wallet

/-- The external process object `KProcess`: the arguments streamed into it
so far, and whether it has been launched. -/
structure KProcess where
  args : List String
  started : Bool
  deriving DecidableEq, Repr

/-- The streaming operator of `KProcess`, appending one argument. -/
def KProcess.push (p : KProcess) (a : String) : KProcess :=
  { p with args := p.args ++ [a] }

/-- The library call `QString::number(n)` for an `int`. -/
def numberToString (n : Int) : String :=
  toString n

/-- The library call `QString::number(n, 16)` for a window identifier. -/
def numberToHex (n : Nat) : String :=
  String.mk (Nat.toDigits 16 n)

/-- The object `KRdpView`: the members its methods read and write, on top of
the base class state. `m_process` is `none` for the null pointer, and
`containerShown` records `m_container->show()`. -/
structure KRdpView extends KRemoteView where
  m_name : String
  m_host : String
  m_port : Int
  m_user : String
  m_password : String
  m_flags : Int
  m_domain : String
  m_shell : String
  m_directory : String
  m_quitFlag : Bool
  m_process : Option KProcess
  m_caption : String
  m_clientVersion : String
  containerShown : Bool
  deriving DecidableEq, Repr

/-- The file-level state of `krdpview.cpp`: the flag `rdpAppDataConfigured`,
the shared `wallet` pointer, and the records that
`HostPreferences::instance()` hands out per host. -/
structure Globals where
  rdpAppDataConfigured : Bool
  wallet : Option Wallet
  hostPrefs : String → RdpHostPref

/-- What the surroundings answer during one call of `start`: the form as
constructed, what the user does with the settings dialog (accepted or not,
and the form as left), what `openWallet` returns, what the password dialog
returns (`none` when dismissed), the window identifier of the container, and
whether the process launches. -/
structure StartEnv where
  newRdpPrefs : RdpPrefs
  execPrefsDialog : RdpPrefs → Bool × RdpPrefs
  openWallet : Option Wallet
  execPasswordDialog : Option String
  winId : Nat
  processStarts : Bool

/-- The result of one call of `start`: the returned flag, the view and the
file-level state afterwards. -/
structure StartResult where
  returned : Bool
  view : KRdpView
  globals : Globals

namespace KRdpView

/-- The constructor of `KRdpView`. `TCP_PORT_RDP` is the default port named
by a constant of `krdpview.h`; `base` is the state the base class
constructor leaves. The client version starts as the empty string. -/
def new (TCP_PORT_RDP : Int) (base : KRemoteView) (name host : String) (port : Int)
    (user password : String) (flags : Int) (domain shell directory caption : String) :
    KRdpView :=
  { toKRemoteView := base
    m_name := name
    m_host := host
    m_port := if port ≤ 0 then TCP_PORT_RDP else port
    m_user := user
    m_password := password
    m_flags := flags
    m_domain := domain
    m_shell := shell
    m_directory := directory
    m_quitFlag := false
    m_process := none
    m_caption := caption
    m_clientVersion := ""
    containerShown := false }

/-- The call `setStatus(s)` made on a `KRdpView`, inherited from the base. -/
def setStatus (v : KRdpView) (s : RemoteStatus) : KRdpView :=
  { v with toKRemoteView := v.toKRemoteView.setStatus s }

/-- One signal or message box added to the trace. -/
def emit (v : KRdpView) (e : Event) : KRdpView :=
  { v with trace := v.trace ++ [e] }

/-- The method `startQuitting`. -/
def startQuitting (v : KRdpView) : KRdpView :=
  { v with m_quitFlag := true }

/-- The method `isQuitting`. -/
def isQuitting (v : KRdpView) : Bool :=
  v.m_quitFlag

/-- The method `host`. -/
def host (v : KRdpView) : String :=
  v.m_host

/-- The method `port`. -/
def port (v : KRdpView) : Int :=
  v.m_port

end KRdpView

/-- Modelled from the spec: the constant `REMOTE_VIEW_CONNECTING` used by
`krdpview.cpp`, whose definition is not among the sources; it names the
status Connecting. -/
def REMOTE_VIEW_CONNECTING : RemoteStatus := RemoteStatus.Connecting

/-- Modelled from the spec: the constant `REMOTE_VIEW_CONNECTED` used by
`krdpview.cpp`, whose definition is not among the sources; it names the
status Connected. -/
def REMOTE_VIEW_CONNECTED : RemoteStatus := RemoteStatus.Connected

/-- Modelled from the spec: the constant `REMOTE_VIEW_DISCONNECTED` used by
`krdpview.cpp`, whose definition is not among the sources; it names the
status Disconnected. -/
def REMOTE_VIEW_DISCONNECTED : RemoteStatus := RemoteStatus.Disconnected

/-- How the first block of `start` ends: with `return false` after the
settings dialog was rejected, or by going on with the pointer `hp` (`none`
when null), the local `useKWallet`, and the file-level state. -/
inductive PrefsOutcome where
  | rejected
  | proceed (hp : Option RdpHostPref) (useKWallet : Bool) (g : Globals)

namespace KRdpView

/-- The first block of `start`: the body of `if(!rdpAppDataConfigured)`. -/
def startPreferences (env : StartEnv) (g : Globals) (v : KRdpView) : PrefsOutcome :=
  if !g.rdpAppDataConfigured then
    let hp := g.hostPrefs v.m_host
    let wv := hp.width
    let hv := hp.height
    let cd := hp.colorDepth
    let kl := hp.layout
    let kwallet := hp.useKWallet
    if hp.askOnConnect then
      let prefs := env.newRdpPrefs
      let prefs := prefs.setRdpWidth wv
      let prefs := prefs.setRdpHeight hv
      let prefs := prefs.setResolution
      let prefs := prefs.setColorDepth cd
      let prefs := prefs.setKbLayout (keymap2int kl)
      let prefs := prefs.setShowPrefs true
      let prefs := prefs.setUseKWallet kwallet
      let answer := env.execPrefsDialog prefs
      if !answer.1 then
        PrefsOutcome.rejected
      else
        let prefs := answer.2
        let wv := prefs.rdpWidth
        let hv := prefs.rdpHeight
        let kl := int2keymap prefs.kbLayout
        let hp := { hp with askOnConnect := prefs.showPrefs }
        let hp := { hp with width := wv }
        let hp := { hp with height := hv }
        let hp := { hp with colorDepth := prefs.colorDepth }
        let hp := { hp with layout := kl }
        let hp := { hp with useKWallet := prefs.useKWallet }
        let g := { g with hostPrefs := fun h => if h = v.m_host then hp else g.hostPrefs h }
        PrefsOutcome.proceed (some hp) hp.useKWallet g
    else
      PrefsOutcome.proceed (some hp) hp.useKWallet g
  else
    PrefsOutcome.proceed none false g

/-- The block of `start` that resolves the password through the secret
store: the value of `m_password` and of the shared `wallet` afterwards. -/
def startPassword (env : StartEnv) (wallet : Option Wallet) (m_host m_password : String)
    (useKWallet : Bool) : String × Option Wallet :=
  if m_password = "" ∧ useKWallet = true then
    let krdc_folder := "KRDC-RDP"
    let wallet : Option Wallet :=
      match wallet with
      | some w => if !w.isOpen then none else some w
      | none => none
    let wallet : Option Wallet :=
      match wallet with
      | none => env.openWallet
      | some w => some w
    match wallet with
    | none => (m_password, none)
    | some w =>
      if w.isOpen then
        let created := if w.hasFolder krdc_folder then (true, w) else w.createFolder krdc_folder
        let walletOK := created.1
        let w := created.2
        let w := if walletOK then w.setFolder krdc_folder else w
        let m_password :=
          if walletOK ∧ w.hasEntry m_host then w.readPassword m_host m_password
          else m_password
        if m_password = "" then
          match env.execPasswordDialog with
          | some entered => (entered, some (w.writePassword m_host entered))
          | none => (m_password, some w)
        else
          (m_password, some w)
      else
        (m_password, some w)
  else
    (m_password, wallet)

/-- The method `start`. The result is `none` when the code dereferences the
null pointer `hp`, which it does when `rdpAppDataConfigured` is set. Calls
that do not touch the state kept here are left out: the window title, the
signal connections, the debug output and `hps->sync()`. -/
def start (env : StartEnv) (g : Globals) (v : KRdpView) : Option StartResult :=
  match startPreferences env g v with
  | PrefsOutcome.rejected => some { returned := false, view := v, globals := g }
  | PrefsOutcome.proceed none _ _ => none
  | PrefsOutcome.proceed (some hp) useKWallet g =>
    let v := { v with containerShown := true }
    let proc : KProcess := { args := [], started := false }
    let proc := proc.push "rdesktop"
    let proc := (proc.push "-g").push
      (numberToString hp.width ++ "x" ++ numberToString hp.height)
    let proc := (proc.push "-k").push hp.layout
    let proc := if v.m_user ≠ "" then (proc.push "-u").push v.m_user else proc
    let resolved := startPassword env g.wallet v.m_host v.m_password useKWallet
    let v := { v with m_password := resolved.1 }
    let g := { g with wallet := resolved.2 }
    let proc := if v.m_password ≠ "" then (proc.push "-p").push v.m_password else proc
    let proc := (proc.push "-X").push ("0x" ++ numberToHex env.winId)
    let proc := (proc.push "-a").push (numberToString hp.colorDepth)
    let proc := proc.push (v.m_host ++ ":" ++ numberToString v.m_port)
    if !env.processStarts then
      let v := { v with m_process := some proc }
      let v := v.emit (Event.messageBox Notice.launchFailure)
      some { returned := false, view := v, globals := g }
    else
      let v := { v with m_process := some { proc with started := true } }
      let v := v.setStatus REMOTE_VIEW_CONNECTING
      some { returned := true, view := v, globals := g }

/-- The slot `connectionOpened`; `size` is the size hint of the container. -/
def connectionOpened (size : Int × Int) (v : KRdpView) : KRdpView :=
  let v := v.setStatus REMOTE_VIEW_CONNECTED
  let v := v.emit (Event.changeSize size.1 size.2)
  v.emit Event.connected

/-- The slot `connectionClosed`. -/
def connectionClosed (v : KRdpView) : KRdpView :=
  let v := v.emit Event.disconnected
  let v := v.setStatus REMOTE_VIEW_DISCONNECTED
  { v with m_quitFlag := true }

/-- The slot `processDied`. -/
def processDied (v : KRdpView) : KRdpView :=
  if v.m_status = REMOTE_VIEW_CONNECTING then
    let v := v.setStatus REMOTE_VIEW_DISCONNECTED
    let v :=
      if v.m_clientVersion = "" then
        v.emit (Event.messageBox Notice.connectionFailure)
      else
        v.emit (Event.messageBox (Notice.versionTooOld v.m_clientVersion))
    v.emit Event.disconnectedError
  else
    v

/-- The events a handler added to the trace: those of `after` beyond the
ones `before` already had. -/
def newEvents (before after : KRdpView) : List Event :=
  after.trace.drop before.trace.length

end KRdpView

/-- The notices among a list of events, in order. -/
def noticesOf : List Event → List Notice
  | [] => []
  | Event.messageBox n :: es => n :: noticesOf es
  | _ :: es => noticesOf es

/-! ## The diagnostic output of the process

A text is its list of characters; the library calls of `QString` that
`receivedStderr` uses are written on that list. -/

/-- The fields of a text between the separators `sep`, empty fields kept:
the split on which `QString::section` works with its default flags. -/
def splitFields (sep : Char) : List Char → List (List Char)
  | [] => [[]]
  | c :: cs =>
    if c = sep then [] :: splitFields sep cs
    else
      match splitFields sep cs with
      | [] => [[c]]
      | f :: fs => (c :: f) :: fs

/-- The library call `QString::section(sep, i, i)` for `i` at least 0: the
field numbered `i`, or the empty text when there is no such field. -/
def stringSection (s : String) (sep : Char) (i : Nat) : String :=
  String.mk ((splitFields sep s.toList).getD i [])

/-- The library call `QString::startsWith`. -/
def stringStartsWith (s start : String) : Bool :=
  start.toList.isPrefixOf s.toList

/-- The library call `QString::left(n)`: the whole text when `n` is negative
or not below the length, the first `n` characters otherwise. -/
def stringLeft (s : String) (n : Int) : String :=
  if n < 0 ∨ n ≥ Int.ofNat s.toList.length then s else String.mk (s.toList.take n.toNat)

namespace KRdpView

/-- The loop of `receivedStderr`, entered with line index `i`: the value of
`m_clientVersion` when the method returns. `fuel` bounds the number of
rounds; the loop ends at the latest when `i` has passed the last field. -/
def receivedStderrLoop (output : String) (m_clientVersion : String) : Nat → Nat → String
  | 0, _ => m_clientVersion
  | fuel + 1, i =>
    let line := stringSection output '\n' i
    if line = "" then
      m_clientVersion
    else if stringStartsWith line "Version " then
      let m_clientVersion := stringSection line ' ' 1
      stringLeft m_clientVersion (Int.ofNat m_clientVersion.toList.length - 1)
    else
      receivedStderrLoop output m_clientVersion fuel (i + 1)

/-- The slot `receivedStderr`; `buffer` is the text of the C string handed
in. The loop gets one round per field of the buffer and one more. -/
def receivedStderr (v : KRdpView) (buffer : String) : KRdpView :=
  let rounds := (splitFields '\n' buffer.toList).length + 1
  { v with m_clientVersion := receivedStderrLoop buffer v.m_clientVersion rounds 0 }

end KRdpView

/-- The lines of a diagnostic buffer as the specification speaks of them:
its newline-separated pieces, in order. -/
def specLines (buffer : String) : List String :=
  (splitFields '\n' buffer.toList).map String.mk

/-- The version the specification reads off a marker line: its second
space-separated field with the trailing character removed. -/
def specVersionOfLine (line : String) : String :=
  String.mk (((splitFields ' ' line.toList).getD 1 []).dropLast)

/-- What the loop of `receivedStderr` comes to on the list of lines: it goes
through the lines in order, ends at the first empty one, and returns at the
first one that starts with the marker. -/
def scanLines (m_clientVersion : String) : List String → String
  | [] => m_clientVersion
  | line :: rest =>
    if line = "" then m_clientVersion
    else if stringStartsWith line "Version " then specVersionOfLine line
    else scanLines m_clientVersion rest

/-! ## Points on the way through `start`

The claims about `start` speak of the settings dialog being shown and
rejected, of the password dialog being shown and dismissed, and of the
argument vector. The first two definitions read these points off the code of
`start`; the third writes the vector down the way the specification lists
it. -/

namespace KRdpView

/-- The settings form as `start` fills it from the record `hp` before it
calls `dlg->exec()`. -/
def startShownPrefs (env : StartEnv) (hp : RdpHostPref) : RdpPrefs :=
  let prefs := env.newRdpPrefs
  let prefs := prefs.setRdpWidth hp.width
  let prefs := prefs.setRdpHeight hp.height
  let prefs := prefs.setResolution
  let prefs := prefs.setColorDepth hp.colorDepth
  let prefs := prefs.setKbLayout (keymap2int hp.layout)
  let prefs := prefs.setShowPrefs true
  prefs.setUseKWallet hp.useKWallet

/-- Whether the password block of `start` reaches `KPasswordDialog::exec`:
the conditions of `startPassword` on the way to the dialog, with the same
arguments. -/
def startPasswordDialogShown (env : StartEnv) (wallet : Option Wallet)
    (m_host m_password : String) (useKWallet : Bool) : Bool :=
  if m_password = "" ∧ useKWallet = true then
    let krdc_folder := "KRDC-RDP"
    let wallet : Option Wallet :=
      match wallet with
      | some w => if !w.isOpen then none else some w
      | none => none
    let wallet : Option Wallet :=
      match wallet with
      | none => env.openWallet
      | some w => some w
    match wallet with
    | none => false
    | some w =>
      if w.isOpen then
        let created := if w.hasFolder krdc_folder then (true, w) else w.createFolder krdc_folder
        let walletOK := created.1
        let w := created.2
        let w := if walletOK then w.setFolder krdc_folder else w
        let m_password :=
          if walletOK ∧ w.hasEntry m_host then w.readPassword m_host m_password
          else m_password
        decide (m_password = "")
      else
        false
  else
    false

/-- Whether a call of `start` shows the password dialog: it gets past the
first block with a record and then reaches the dialog. -/
def startShowsPasswordDialog (env : StartEnv) (g : Globals) (v : KRdpView) : Bool :=
  match startPreferences env g v with
  | PrefsOutcome.proceed (some _) useKWallet g1 =>
    startPasswordDialogShown env g1.wallet v.m_host v.m_password useKWallet
  | _ => false

end KRdpView

/-- The argument vector as the specification lists it: the program name, the
geometry, the keyboard layout, the user when there is one, the password when
there is one, the window identifier, the colour depth and the endpoint. -/
def specArgumentVector (hp : RdpHostPref) (user password : String) (winId : Nat)
    (host : String) (port : Int) : List String :=
  ["rdesktop", "-g", numberToString hp.width ++ "x" ++ numberToString hp.height,
      "-k", hp.layout]
    ++ (if user ≠ "" then ["-u", user] else [])
    ++ (if password ≠ "" then ["-p", password] else [])
    ++ ["-X", "0x" ++ numberToHex winId, "-a", numberToString hp.colorDepth,
        host ++ ":" ++ numberToString port]

/-! ## The claimed version test

The text of the version notice names rdesktop 1.3.2 as the minimum. The
definitions below read "the captured version is below the minimum" as a
comparison of dotted decimal numbers; they follow the specification and have
no counterpart in the code. -/

/-- Dotted decimal numbers of a version text; `acc` is the number being
read. Characters other than digits and dots end the number being read and
are skipped. -/
def specVersionNumbers : List Char → Nat → List Nat
  | [], acc => [acc]
  | c :: cs, acc =>
    if c = '.' then acc :: specVersionNumbers cs 0
    else if c.isDigit then specVersionNumbers cs (acc * 10 + (c.toNat - '0'.toNat))
    else specVersionNumbers cs acc

/-- Lexicographic "less than" on version numbers, missing parts being 0. -/
def specVersionLt : List Nat → List Nat → Bool
  | [], [] => false
  | [], b :: bs => if 0 < b then true else specVersionLt [] bs
  | _ :: _, [] => false
  | a :: as, b :: bs => if a < b then true else if b < a then false else specVersionLt as bs

/-- The minimum version the notice names, rdesktop 1.3.2. -/
def specMinimumVersion : List Nat := [1, 3, 2]

/-- The specification's test: the captured version is below the minimum. -/
def specVersionBelowMinimum (clientVersion : String) : Bool :=
  specVersionLt (specVersionNumbers clientVersion.toList 0) specMinimumVersion

/-! ## Concrete inputs -/

/-- A form as the form constructor might leave it: all inputs at zero. -/
def sampleRdpPrefs : RdpPrefs :=
  { spinWidth := { value := 0, enabled := true }
    spinHeight := { value := 0, enabled := true }
    widthLabel := true
    heightLabel := true
    cmbResolution := { currentIndex := 0, enabled := true }
    cmbColorDepth := { currentIndex := 0, enabled := true }
    cmbKbLayout := { currentIndex := 0, enabled := true }
    cbShowPrefs := false
    cbUseKWallet := false }

/-- Surroundings in which the user accepts the settings dialog unchanged, no
wallet can be opened, the container has window identifier 255 and the
process launches. -/
def sampleEnv : StartEnv :=
  { newRdpPrefs := sampleRdpPrefs
    execPrefsDialog := fun f => (true, f)
    openWallet := none
    execPasswordDialog := none
    winId := 255
    processStarts := true }

/-- A host preference record: 800 by 600, 16 bit colour, German layout, no
dialog on connect, no wallet. -/
def sampleHostPref : RdpHostPref :=
  { askOnConnect := false
    width := 800
    height := 600
    colorDepth := 16
    layout := "de"
    useKWallet := false }

/-- File-level state before the first connection: preferences still to be
read, no wallet, the same record for every host. -/
def sampleGlobals : Globals :=
  { rdpAppDataConfigured := false
    wallet := none
    hostPrefs := fun _ => sampleHostPref }

/-- The view constructed for host "test" and port 0, with 3389 for
`TCP_PORT_RDP`, on a base that starts out Disconnected. -/
def sampleView : KRdpView :=
  KRdpView.new 3389 { m_status := RemoteStatus.Disconnected, trace := [] }
    "rdp" "test" 0 "" "" 0 "" "" "" ""

/-- The sample view in status `s` with `clientVersion` captured from the
process (the empty string when nothing was captured). -/
def sampleViewIn (s : RemoteStatus) (clientVersion : String) : KRdpView :=
  { sampleView with m_status := s, m_clientVersion := clientVersion }

/-- A host preference record that asks for the settings dialog on connect
and uses the wallet. -/
def sampleAskingHostPref : RdpHostPref :=
  { askOnConnect := true
    width := 1024
    height := 768
    colorDepth := 8
    layout := "fr"
    useKWallet := true }

/-- File-level state in which every host has the asking record. -/
def sampleAskingGlobals : Globals :=
  { rdpAppDataConfigured := false
    wallet := none
    hostPrefs := fun _ => sampleAskingHostPref }

/-- Surroundings in which the user rejects the settings dialog. -/
def sampleRejectingEnv : StartEnv :=
  { sampleEnv with execPrefsDialog := fun f => (false, f) }

/-- An open wallet with the folder "KRDC-RDP" and no password in it. -/
def sampleWallet : Wallet :=
  { isOpen := true
    folders := ["KRDC-RDP"]
    canCreateFolder := true
    currentFolder := ""
    passwords := [] }

/-- A host preference record that skips the settings dialog and uses the
wallet. -/
def sampleWalletHostPref : RdpHostPref :=
  { sampleHostPref with useKWallet := true }

/-- File-level state with the open sample wallet and the wallet-using
record for every host. -/
def sampleWalletGlobals : Globals :=
  { rdpAppDataConfigured := false
    wallet := some sampleWallet
    hostPrefs := fun _ => sampleWalletHostPref }

/-- The view for host "test" with user "alice" and no password. -/
def sampleUserView : KRdpView :=
  KRdpView.new 3389 { m_status := RemoteStatus.Disconnected, trace := [] }
    "rdp" "test" 0 "alice" "" 0 "" "" "" ""

/-! ## Theorems: the status machine -/

/-- Closed form of `setStatus`: the last status of the path, and one
`statusChanged` per status of the path. -/
theorem KRemoteView.setStatus_eq (v : KRemoteView) (s : RemoteStatus) :
    v.setStatus s =
      { m_status := ((KRemoteView.transitionPath v.m_status s).getLast?).getD v.m_status,
        trace := v.trace ++ (KRemoteView.transitionPath v.m_status s).map Event.statusChanged } := by
  unfold KRemoteView.setStatus
  generalize KRemoteView.transitionPath v.m_status s = p
  induction p generalizing v with
  | nil => simp
  | cons t ts ih =>
    rw [List.foldl_cons, ih]
    cases ts with
    | nil => simp
    | cons u us =>
      simp only [List.getLast?_cons_cons]
      rw [List.getLast?_eq_getLast _ (List.cons_ne_nil u us)]
      simp

/-- The path of a forward move, by enumerator values. -/
theorem KRemoteView.transitionPath_forward (a b : RemoteStatus)
    (ha : a.isForward = true) (hb : b.isForward = true) (hlt : a.toInt < b.toInt) :
    (KRemoteView.transitionPath a b).map RemoteStatus.toInt
        = (List.range (b.toInt - a.toInt).toNat).map
            (fun (i : Nat) => a.toInt + 1 + Int.ofNat i)
      ∧ ((KRemoteView.transitionPath a b).getLast?).getD a = b := by
  revert ha hb hlt
  cases a <;> cases b <;> decide

/-- The path of a backward move starts at Disconnected and ends at the
requested status. -/
theorem KRemoteView.transitionPath_backward (c r : RemoteStatus)
    (hc : c.isForward = true) (hr : r.isForward = true) (hlt : r.toInt < c.toInt) :
    (KRemoteView.transitionPath c r).head? = some RemoteStatus.Disconnected
      ∧ (KRemoteView.transitionPath c r).getLast? = some r
      ∧ ((KRemoteView.transitionPath c r).getLast?).getD c = r := by
  revert hc hr hlt
  cases c <;> cases r <;> decide

/-- C1: requesting Disconnected in any status emits exactly one
`statusChanged`, carrying Disconnected, with no intermediate notification,
and leaves the status equal to Disconnected. -/
theorem setStatus_Disconnected_single_notification (v : KRemoteView) :
    (v.setStatus RemoteStatus.Disconnected).trace
        = v.trace ++ [Event.statusChanged RemoteStatus.Disconnected]
      ∧ KRemoteView.statusNotifications
          ((v.setStatus RemoteStatus.Disconnected).trace.drop v.trace.length)
        = [RemoteStatus.Disconnected]
      ∧ (v.setStatus RemoteStatus.Disconnected).status = RemoteStatus.Disconnected := by
  rw [KRemoteView.setStatus_eq]
  refine ⟨rfl, ?_, rfl⟩
  show KRemoteView.statusNotifications
      ((v.trace ++ [Event.statusChanged RemoteStatus.Disconnected]).drop v.trace.length) = _
  rw [List.drop_left]
  rfl

/-- C2: a forward move from status `a` to a later status `b` of the forward
sequence emits `statusChanged` exactly for the statuses valued a+1, a+2, ...,
b, in that order, and leaves the status equal to `b`. -/
theorem setStatus_forward_walk (v : KRemoteView) (b : RemoteStatus)
    (ha : v.m_status.isForward = true) (hb : b.isForward = true)
    (hlt : v.m_status.toInt < b.toInt) :
    ∃ emitted : List RemoteStatus,
      (v.setStatus b).trace = v.trace ++ emitted.map Event.statusChanged
        ∧ emitted.map RemoteStatus.toInt
            = (List.range (b.toInt - v.m_status.toInt).toNat).map
                (fun (i : Nat) => v.m_status.toInt + 1 + Int.ofNat i)
        ∧ (v.setStatus b).status = b := by
  rw [KRemoteView.setStatus_eq]
  exact ⟨KRemoteView.transitionPath v.m_status b, rfl,
    KRemoteView.transitionPath_forward v.m_status b ha hb hlt⟩

/-- Witness of C2: in Connecting, requesting Preparing emits Authenticating
and then Preparing, and nothing else. -/
theorem setStatus_forward_walk_witness :
    ∃ emitted : List RemoteStatus,
      ((KRemoteView.mk RemoteStatus.Connecting []).setStatus RemoteStatus.Preparing).trace
          = [] ++ emitted.map Event.statusChanged
        ∧ emitted.map RemoteStatus.toInt
            = (List.range (RemoteStatus.Preparing.toInt
                  - RemoteStatus.Connecting.toInt).toNat).map
                (fun (i : Nat) => RemoteStatus.Connecting.toInt + 1 + Int.ofNat i)
        ∧ ((KRemoteView.mk RemoteStatus.Connecting []).setStatus
            RemoteStatus.Preparing).status = RemoteStatus.Preparing :=
  setStatus_forward_walk (KRemoteView.mk RemoteStatus.Connecting [])
    RemoteStatus.Preparing (by decide) (by decide) (by decide)

/-- C3: in Disconnected, requesting Connecting ends in Connecting; and a
backward move inside the forward sequence emits a notification sequence that
begins with Disconnected and ends with the requested status, which is also
the final status. -/
theorem setStatus_restart_and_backward (v : KRemoteView) :
    (v.m_status = RemoteStatus.Disconnected →
        (v.setStatus RemoteStatus.Connecting).status = RemoteStatus.Connecting)
      ∧ ∀ r : RemoteStatus, v.m_status.isForward = true → r.isForward = true →
          r.toInt < v.m_status.toInt →
          ∃ emitted : List RemoteStatus,
            (v.setStatus r).trace = v.trace ++ emitted.map Event.statusChanged
              ∧ emitted.head? = some RemoteStatus.Disconnected
              ∧ emitted.getLast? = some r
              ∧ (v.setStatus r).status = r := by
  constructor
  · intro h
    rw [KRemoteView.setStatus_eq, h]
    rfl
  · intro r hc hr hlt
    rw [KRemoteView.setStatus_eq]
    exact ⟨KRemoteView.transitionPath v.m_status r, rfl,
      KRemoteView.transitionPath_backward v.m_status r hc hr hlt⟩

/-- Witness of C3: the restart from Disconnected, and the backward move from
Connected to Connecting. -/
theorem setStatus_restart_and_backward_witness :
    ((KRemoteView.mk RemoteStatus.Disconnected []).setStatus
        RemoteStatus.Connecting).status = RemoteStatus.Connecting
      ∧ ∃ emitted : List RemoteStatus,
          ((KRemoteView.mk RemoteStatus.Connected []).setStatus
              RemoteStatus.Connecting).trace = [] ++ emitted.map Event.statusChanged
            ∧ emitted.head? = some RemoteStatus.Disconnected
            ∧ emitted.getLast? = some RemoteStatus.Connecting
            ∧ ((KRemoteView.mk RemoteStatus.Connected []).setStatus
                RemoteStatus.Connecting).status = RemoteStatus.Connecting :=
  ⟨(setStatus_restart_and_backward (KRemoteView.mk RemoteStatus.Disconnected [])).1 rfl,
   (setStatus_restart_and_backward (KRemoteView.mk RemoteStatus.Connected [])).2
      RemoteStatus.Connecting (by decide) (by decide) (by decide)⟩

/-! ## Theorems: keyboard layouts -/

/-- The backward scan finds nothing when the string is not in the list. -/
theorem lastIndexOfBelow_not_mem (l : List String) (x : String) (hx : x ∉ l) (n : Nat) :
    lastIndexOfBelow l x n = -1 := by
  induction n with
  | zero => rfl
  | succ n ih =>
    unfold lastIndexOfBelow
    have h : l.get? n ≠ some x := by
      intro hget
      exact hx (List.get?_mem hget)
    rw [if_neg h]
    exact ih

/-- The layout table has 37 entries. -/
theorem keymaps_length : keymaps.length = 37 := by decide

/-- C4: on every code of the layout table, `int2keymap` undoes
`keymap2int`; so storing such a code with `setKeyboardLayout` and reading it
back with `keyboardLayout` from the same configuration group returns it,
whatever the application default is. The table holds 37 codes, "de" among
them, and no code twice. -/
theorem keyboardLayout_roundtrip :
    keymaps.length = 37 ∧ "de" ∈ keymaps ∧ keymaps.Nodup
      ∧ ∀ k ∈ keymaps, int2keymap (keymap2int k) = k
          ∧ ∀ (dflt : Int) (p : RdpHostPreferences),
              RdpHostPreferences.keyboardLayout dflt (p.setKeyboardLayout (some k)) = k := by
  refine ⟨by decide, by decide, by decide, ?_⟩
  intro k hk
  have h : int2keymap (keymap2int k) = k := by
    revert k
    decide
  refine ⟨h, ?_⟩
  intro dflt p
  simp [RdpHostPreferences.keyboardLayout, RdpHostPreferences.setKeyboardLayout,
    KConfigGroup.writeEntry, KConfigGroup.readEntry, h]

/-- Witness of C4: the layout "de" survives the round trip. -/
theorem keyboardLayout_roundtrip_witness :
    int2keymap (keymap2int "de") = "de"
      ∧ ∀ (dflt : Int) (p : RdpHostPreferences),
          RdpHostPreferences.keyboardLayout dflt (p.setKeyboardLayout (some "de")) = "de" :=
  keyboardLayout_roundtrip.2.2.2 "de" (by decide)

/-- An ordinal outside the table is mapped to "en-us". -/
theorem int2keymap_out_of_range (n : Int) (hn : n < 0 ∨ n ≥ 37) :
    int2keymap n = "en-us" := by
  have hc : ¬ (n ≥ 0 ∧ n < Int.ofNat keymaps.length) := by
    rw [keymaps_length]
    simp only [Int.ofNat_eq_coe, Nat.cast_ofNat]
    omega
  unfold int2keymap
  rw [if_neg hc]
  decide

/-- A string outside the table is mapped to the default ordinal. -/
theorem keymap2int_unknown (s : String) (hs : s ∉ keymaps) : keymap2int s = 7 := by
  unfold keymap2int lastIndexOf
  rw [lastIndexOfBelow_not_mem keymaps s hs]
  rfl

/-- C5: an ordinal below 0 or at least 37 is mapped by `int2keymap` to
"en-us"; a non-null string that is not in the layout table is mapped by
`keymap2int` to 7, hence back to "en-us", and that is what `keyboardLayout`
returns after `setKeyboardLayout` stored such a string. -/
theorem keyboardLayout_default :
    (∀ n : Int, n < 0 ∨ n ≥ 37 → int2keymap n = "en-us")
      ∧ ∀ s : String, s ∉ keymaps →
          keymap2int s = 7
            ∧ int2keymap (keymap2int s) = "en-us"
            ∧ ∀ (dflt : Int) (p : RdpHostPreferences),
                RdpHostPreferences.keyboardLayout dflt (p.setKeyboardLayout (some s))
                  = "en-us" := by
  refine ⟨int2keymap_out_of_range, ?_⟩
  intro s hs
  have h7 := keymap2int_unknown s hs
  have hus : int2keymap (keymap2int s) = "en-us" := by
    rw [h7]
    decide
  refine ⟨h7, hus, ?_⟩
  intro dflt p
  simp [RdpHostPreferences.keyboardLayout, RdpHostPreferences.setKeyboardLayout,
    KConfigGroup.writeEntry, KConfigGroup.readEntry, hus]

/-- Witness of C5: the ordinals -1 and 37, and the unknown layout "xx". -/
theorem keyboardLayout_default_witness :
    int2keymap (-1) = "en-us" ∧ int2keymap 37 = "en-us"
      ∧ (keymap2int "xx" = 7
          ∧ int2keymap (keymap2int "xx") = "en-us"
          ∧ ∀ (dflt : Int) (p : RdpHostPreferences),
              RdpHostPreferences.keyboardLayout dflt (p.setKeyboardLayout (some "xx"))
                = "en-us") :=
  ⟨keyboardLayout_default.1 (-1) (by decide), keyboardLayout_default.1 37 (by decide),
   keyboardLayout_default.2 "xx" (by decide)⟩

/-! ## Theorems: the colour-depth selector -/

/-- C6: whatever the selector looked like before, `updateColorDepth` leaves
it disabled at index 0 for the accelerated modes ForceGraphicsPipeline and
ForceRemoteFx, and enabled with its index untouched for Disabled and Auto. -/
theorem updateColorDepth_selector (p : RdpHostPreferences) (a : Acceleration) :
    ((a = Acceleration.ForceGraphicsPipeline ∨ a = Acceleration.ForceRemoteFx) →
        (p.updateColorDepth a).rdpUi.kcfg_ColorDepth.enabled = false
          ∧ (p.updateColorDepth a).rdpUi.kcfg_ColorDepth.currentIndex = 0)
      ∧ ((a = Acceleration.Disabled ∨ a = Acceleration.Auto) →
        (p.updateColorDepth a).rdpUi.kcfg_ColorDepth.enabled = true
          ∧ (p.updateColorDepth a).rdpUi.kcfg_ColorDepth.currentIndex
              = p.rdpUi.kcfg_ColorDepth.currentIndex) := by
  cases a <;> simp [RdpHostPreferences.updateColorDepth]

/-- Witness of C6: a selector enabled at index 2, under ForceRemoteFx and
under Auto. -/
theorem updateColorDepth_selector_witness :
    ((RdpHostPreferences.updateColorDepth
          ⟨⟨[]⟩, ⟨⟨0, true⟩, ⟨0, true⟩, ⟨0, true⟩, ⟨2, true⟩, ⟨2, true⟩, ⟨0, true⟩, true, true⟩⟩
          Acceleration.ForceRemoteFx).rdpUi.kcfg_ColorDepth.enabled = false
        ∧ (RdpHostPreferences.updateColorDepth
          ⟨⟨[]⟩, ⟨⟨0, true⟩, ⟨0, true⟩, ⟨0, true⟩, ⟨2, true⟩, ⟨2, true⟩, ⟨0, true⟩, true, true⟩⟩
          Acceleration.ForceRemoteFx).rdpUi.kcfg_ColorDepth.currentIndex = 0)
      ∧ ((RdpHostPreferences.updateColorDepth
          ⟨⟨[]⟩, ⟨⟨0, true⟩, ⟨0, true⟩, ⟨0, true⟩, ⟨0, true⟩, ⟨2, false⟩, ⟨0, true⟩, true, true⟩⟩
          Acceleration.Auto).rdpUi.kcfg_ColorDepth.enabled = true
        ∧ (RdpHostPreferences.updateColorDepth
          ⟨⟨[]⟩, ⟨⟨0, true⟩, ⟨0, true⟩, ⟨0, true⟩, ⟨0, true⟩, ⟨2, false⟩, ⟨0, true⟩, true, true⟩⟩
          Acceleration.Auto).rdpUi.kcfg_ColorDepth.currentIndex = 2) :=
  ⟨(updateColorDepth_selector
      ⟨⟨[]⟩, ⟨⟨0, true⟩, ⟨0, true⟩, ⟨0, true⟩, ⟨2, true⟩, ⟨2, true⟩, ⟨0, true⟩, true, true⟩⟩
      Acceleration.ForceRemoteFx).1 (Or.inr rfl),
   (updateColorDepth_selector
      ⟨⟨[]⟩, ⟨⟨0, true⟩, ⟨0, true⟩, ⟨0, true⟩, ⟨0, true⟩, ⟨2, false⟩, ⟨0, true⟩, true, true⟩⟩
      Acceleration.Auto).2 (Or.inr rfl)⟩

/-! ## Theorems: the RDP view -/

/-- After a rejected settings dialog `start` returns false and changes
nothing. -/
theorem KRdpView.start_of_rejected (env : StartEnv) (g : Globals) (v : KRdpView)
    (h : v.startPreferences env g = PrefsOutcome.rejected) :
    v.start env g = some { returned := false, view := v, globals := g } := by
  unfold KRdpView.start
  rw [h]

/-- With a null `hp`, `start` has no defined result. -/
theorem KRdpView.start_of_null (env : StartEnv) (g g1 : Globals) (v : KRdpView) (u : Bool)
    (h : v.startPreferences env g = PrefsOutcome.proceed none u g1) :
    v.start env g = none := by
  unfold KRdpView.start
  rw [h]

/-- With preferences at hand `start` creates the process, and the last
argument streamed into it is the endpoint. -/
theorem KRdpView.start_of_proceed (env : StartEnv) (g g1 : Globals) (v : KRdpView)
    (hp : RdpHostPref) (u : Bool)
    (h : v.startPreferences env g = PrefsOutcome.proceed (some hp) u g1) :
    ∃ (out : StartResult) (front : List String),
      v.start env g = some out
        ∧ out.returned = env.processStarts
        ∧ out.view.m_process
            = some { args := front ++ [v.m_host ++ ":" ++ numberToString v.m_port],
                     started := env.processStarts } := by
  unfold KRdpView.start
  rw [h]
  cases hs : env.processStarts <;>
    by_cases hu : v.m_user = "" <;>
    by_cases hpw : (KRdpView.startPassword env g1.wallet v.m_host v.m_password u).1 = "" <;>
    simp only [hu, hpw, ne_eq, not_true_eq_false, not_false_eq_true, if_true, if_false,
      Bool.not_false, Bool.not_true, Bool.false_eq_true, KProcess.push, KRdpView.emit,
      KRdpView.setStatus] <;>
    exact ⟨_, _, rfl, rfl, rfl⟩

/-- The first block of `start` goes on with a record when the preferences
are to be read and the dialog is not asked for or is accepted. -/
theorem KRdpView.startPreferences_proceed (env : StartEnv) (g : Globals) (v : KRdpView)
    (hg : g.rdpAppDataConfigured = false)
    (hd : (g.hostPrefs v.m_host).askOnConnect = false
            ∨ ∀ f : RdpPrefs, (env.execPrefsDialog f).1 = true) :
    ∃ (hp : RdpHostPref) (u : Bool) (g1 : Globals),
      v.startPreferences env g = PrefsOutcome.proceed (some hp) u g1 := by
  unfold KRdpView.startPreferences
  simp only [hg, Bool.not_false, if_true]
  cases ha : (g.hostPrefs v.m_host).askOnConnect
  · exact ⟨_, _, _, rfl⟩
  · rcases hd with hd | hd
    · rw [ha] at hd
      exact absurd hd (by decide)
    · simp only [hd, Bool.not_true, Bool.false_eq_true, if_false, if_true]
      exact ⟨_, _, _, rfl⟩

/-- Every process that `start` creates has the endpoint as last argument. -/
theorem KRdpView.start_last_argument (env : StartEnv) (g : Globals) (v : KRdpView)
    (hv : v.m_process = none) (out : StartResult) (proc : KProcess)
    (hs : v.start env g = some out) (hproc : out.view.m_process = some proc) :
    proc.args.getLast? = some (v.m_host ++ ":" ++ numberToString v.m_port) := by
  cases hpre : v.startPreferences env g with
  | rejected =>
    rw [KRdpView.start_of_rejected env g v hpre] at hs
    cases hs
    rw [hv] at hproc
    cases hproc
  | proceed hp u g1 =>
    cases hp with
    | none =>
      rw [KRdpView.start_of_null env g g1 v u hpre] at hs
      cases hs
    | some hp =>
      obtain ⟨out1, front, h1, _, h3⟩ := KRdpView.start_of_proceed env g g1 v hp u hpre
      rw [h1] at hs
      cases hs
      rw [h3] at hproc
      cases hproc
      simp

/-- When the first block goes on, `start` does create the process. -/
theorem KRdpView.start_launch_last_argument (env : StartEnv) (g : Globals) (v : KRdpView)
    (hg : g.rdpAppDataConfigured = false)
    (hd : (g.hostPrefs v.m_host).askOnConnect = false
            ∨ ∀ f : RdpPrefs, (env.execPrefsDialog f).1 = true) :
    ∃ (out : StartResult) (proc : KProcess),
      v.start env g = some out ∧ out.view.m_process = some proc
        ∧ proc.args.getLast? = some (v.m_host ++ ":" ++ numberToString v.m_port) := by
  obtain ⟨hp, u, g1, hpre⟩ := KRdpView.startPreferences_proceed env g v hg hd
  obtain ⟨out, front, h1, _, h3⟩ := KRdpView.start_of_proceed env g g1 v hp u hpre
  exact ⟨out, _, h1, h3, by simp⟩

/-- C7: a view constructed with port `p` at most 0 reports the default port
`TCP_PORT_RDP` from `port()`, and one constructed with a positive `p` reports
`p`. In both cases every argument vector that `start` builds ends with the
endpoint made of the host, a colon and that port in decimal; and `start`
does build one whenever the preferences are to be read and the settings
dialog is not asked for or is accepted. -/
theorem start_endpoint_port (TCP_PORT_RDP : Int) (base : KRemoteView) (name h : String)
    (p : Int) (user password : String) (flags : Int)
    (domain shell directory caption : String) :
    ((p ≤ 0 →
        (KRdpView.new TCP_PORT_RDP base name h p user password flags domain shell
            directory caption).port = TCP_PORT_RDP)
      ∧ (0 < p →
        (KRdpView.new TCP_PORT_RDP base name h p user password flags domain shell
            directory caption).port = p))
    ∧ (∀ (env : StartEnv) (g : Globals) (out : StartResult) (proc : KProcess),
        (KRdpView.new TCP_PORT_RDP base name h p user password flags domain shell
            directory caption).start env g = some out →
        out.view.m_process = some proc →
        proc.args.getLast?
          = some (h ++ ":" ++ numberToString (if p ≤ 0 then TCP_PORT_RDP else p)))
    ∧ (∀ (env : StartEnv) (g : Globals),
        g.rdpAppDataConfigured = false →
        ((g.hostPrefs h).askOnConnect = false
          ∨ ∀ f : RdpPrefs, (env.execPrefsDialog f).1 = true) →
        ∃ (out : StartResult) (proc : KProcess),
          (KRdpView.new TCP_PORT_RDP base name h p user password flags domain shell
              directory caption).start env g = some out
            ∧ out.view.m_process = some proc
            ∧ proc.args.getLast?
                = some (h ++ ":" ++ numberToString (if p ≤ 0 then TCP_PORT_RDP else p))) := by
  refine ⟨⟨?_, ?_⟩, ?_, ?_⟩
  · intro hp
    simp [KRdpView.port, KRdpView.new, hp]
  · intro hp
    have hn : ¬ p ≤ 0 := not_le.mpr hp
    simp [KRdpView.port, KRdpView.new, hn]
  · intro env g out proc hs hproc
    exact KRdpView.start_last_argument env g _ rfl out proc hs hproc
  · intro env g hg hd
    exact KRdpView.start_launch_last_argument env g _ hg hd

/-- Witness of C7: host "test" with port 0 and 3389 as the default port
reports port 3389 and is launched with the endpoint "test:3389". -/
theorem start_endpoint_port_witness :
    sampleView.port = 3389
      ∧ ∃ (out : StartResult) (proc : KProcess),
          sampleView.start sampleEnv sampleGlobals = some out
            ∧ out.view.m_process = some proc
            ∧ proc.args.getLast? = some "test:3389" :=
  ⟨(start_endpoint_port 3389 { m_status := RemoteStatus.Disconnected, trace := [] }
      "rdp" "test" 0 "" "" 0 "" "" "" "").1.1 (by decide),
   (start_endpoint_port 3389 { m_status := RemoteStatus.Disconnected, trace := [] }
      "rdp" "test" 0 "" "" 0 "" "" "" "").2.2 sampleEnv sampleGlobals rfl (Or.inl rfl)⟩

/-- What `processDied` does in status Connecting. -/
theorem KRdpView.processDied_connecting (v : KRdpView)
    (h : v.m_status = RemoteStatus.Connecting) :
    (v.processDied).m_status = RemoteStatus.Disconnected
      ∧ (v.processDied).trace
          = v.trace ++
              [Event.statusChanged RemoteStatus.Disconnected,
               Event.messageBox
                 (if v.m_clientVersion = "" then Notice.connectionFailure
                  else Notice.versionTooOld v.m_clientVersion),
               Event.disconnectedError] := by
  unfold KRdpView.processDied
  simp only [REMOTE_VIEW_CONNECTING, REMOTE_VIEW_DISCONNECTED, h, if_true, KRdpView.setStatus,
    KRemoteView.setStatus_eq, KRdpView.emit]
  by_cases hv : v.m_clientVersion = "" <;> simp [hv, KRemoteView.transitionPath]

/-- Outside status Connecting `processDied` does nothing. -/
theorem KRdpView.processDied_not_connecting (v : KRdpView)
    (h : v.m_status ≠ RemoteStatus.Connecting) : v.processDied = v := by
  unfold KRdpView.processDied
  rw [if_neg (by simpa [REMOTE_VIEW_CONNECTING] using h)]

/-- The one notice `processDied` shows in status Connecting. -/
theorem KRdpView.processDied_notices (v : KRdpView)
    (h : v.m_status = RemoteStatus.Connecting) :
    noticesOf (KRdpView.newEvents v v.processDied)
      = [if v.m_clientVersion = "" then Notice.connectionFailure
         else Notice.versionTooOld v.m_clientVersion] := by
  unfold KRdpView.newEvents
  rw [(KRdpView.processDied_connecting v h).2, List.drop_left]
  rfl

/-- C8, refuted as stated: with status Connecting and the captured version
"1.4.0", which is not below the minimum 1.3.2, `processDied` produces the
version notice and not the generic connection-failure notice; so the version
notice is not tied to the version being below the minimum. -/
theorem processDied_version_not_compared :
    (sampleViewIn RemoteStatus.Connecting "1.4.0").m_status = RemoteStatus.Connecting
      ∧ (sampleViewIn RemoteStatus.Connecting "1.4.0").m_clientVersion ≠ ""
      ∧ specVersionBelowMinimum (sampleViewIn RemoteStatus.Connecting "1.4.0").m_clientVersion
          = false
      ∧ noticesOf (KRdpView.newEvents (sampleViewIn RemoteStatus.Connecting "1.4.0")
          (sampleViewIn RemoteStatus.Connecting "1.4.0").processDied)
          = [Notice.versionTooOld "1.4.0"]
      ∧ ¬ ((∃ x, Notice.versionTooOld x ∈
              noticesOf (KRdpView.newEvents (sampleViewIn RemoteStatus.Connecting "1.4.0")
                (sampleViewIn RemoteStatus.Connecting "1.4.0").processDied))
            ↔ ((sampleViewIn RemoteStatus.Connecting "1.4.0").m_clientVersion ≠ ""
                ∧ specVersionBelowMinimum
                    (sampleViewIn RemoteStatus.Connecting "1.4.0").m_clientVersion = true))
      ∧ Notice.connectionFailure ∉
          noticesOf (KRdpView.newEvents (sampleViewIn RemoteStatus.Connecting "1.4.0")
            (sampleViewIn RemoteStatus.Connecting "1.4.0").processDied) := by
  have hn : noticesOf (KRdpView.newEvents (sampleViewIn RemoteStatus.Connecting "1.4.0")
      (sampleViewIn RemoteStatus.Connecting "1.4.0").processDied)
      = [Notice.versionTooOld "1.4.0"] := by decide
  refine ⟨rfl, by decide, by decide, hn, ?_, ?_⟩
  · rw [hn]
    intro hiff
    have hbelow := (hiff.mp ⟨"1.4.0", List.mem_singleton.mpr rfl⟩).2
    exact absurd hbelow (by decide)
  · rw [hn]
    decide

/-- C8, as amended: when the process exits while the status is Connecting,
the version notice is produced if and only if a version text was captured,
whatever that version is, and it carries the captured text; the generic
connection-failure notice is produced if and only if none was captured; in
both cases it is the only notice. -/
theorem processDied_notice_by_capture (v : KRdpView)
    (h : v.m_status = RemoteStatus.Connecting) :
    ((∃ x, Notice.versionTooOld x ∈ noticesOf (KRdpView.newEvents v v.processDied))
        ↔ v.m_clientVersion ≠ "")
      ∧ (Notice.connectionFailure ∈ noticesOf (KRdpView.newEvents v v.processDied)
        ↔ v.m_clientVersion = "")
      ∧ (v.m_clientVersion ≠ "" →
          noticesOf (KRdpView.newEvents v v.processDied)
            = [Notice.versionTooOld v.m_clientVersion])
      ∧ (v.m_clientVersion = "" →
          noticesOf (KRdpView.newEvents v v.processDied) = [Notice.connectionFailure]) := by
  rw [KRdpView.processDied_notices v h]
  by_cases hv : v.m_clientVersion = "" <;> simp [hv]

/-- Witness of C8 as amended: version "1.4.0" captured, and none captured. -/
theorem processDied_notice_by_capture_witness :
    noticesOf (KRdpView.newEvents (sampleViewIn RemoteStatus.Connecting "1.4.0")
        (sampleViewIn RemoteStatus.Connecting "1.4.0").processDied)
        = [Notice.versionTooOld "1.4.0"]
      ∧ noticesOf (KRdpView.newEvents (sampleViewIn RemoteStatus.Connecting "")
          (sampleViewIn RemoteStatus.Connecting "").processDied)
          = [Notice.connectionFailure] :=
  ⟨(processDied_notice_by_capture (sampleViewIn RemoteStatus.Connecting "1.4.0") rfl).2.2.1
      (by decide),
   (processDied_notice_by_capture (sampleViewIn RemoteStatus.Connecting "") rfl).2.2.2 rfl⟩

/-- C9: when `processDied` runs in status Connecting with no version text
captured, the status becomes Disconnected, the generic connection-failure
notice is shown and the version notice is not, and exactly one
`disconnectedError` is emitted, after the status change and the notice. -/
theorem processDied_connecting_no_version (v : KRdpView)
    (h : v.m_status = RemoteStatus.Connecting) (hv : v.m_clientVersion = "") :
    (v.processDied).m_status = RemoteStatus.Disconnected
      ∧ (v.processDied).trace
          = v.trace ++
              [Event.statusChanged RemoteStatus.Disconnected,
               Event.messageBox Notice.connectionFailure,
               Event.disconnectedError]
      ∧ noticesOf (KRdpView.newEvents v v.processDied) = [Notice.connectionFailure]
      ∧ (KRdpView.newEvents v v.processDied).count Event.disconnectedError = 1 := by
  have hd := KRdpView.processDied_connecting v h
  have hn := KRdpView.processDied_notices v h
  rw [if_pos hv] at hn
  simp only [hv, if_true] at hd
  refine ⟨hd.1, hd.2, hn, ?_⟩
  unfold KRdpView.newEvents
  rw [hd.2, List.drop_left]
  decide

/-- Witness of C9: the sample view in Connecting with nothing captured. -/
theorem processDied_connecting_no_version_witness :
    ((sampleViewIn RemoteStatus.Connecting "").processDied).m_status
        = RemoteStatus.Disconnected
      ∧ ((sampleViewIn RemoteStatus.Connecting "").processDied).trace
          = (sampleViewIn RemoteStatus.Connecting "").trace ++
              [Event.statusChanged RemoteStatus.Disconnected,
               Event.messageBox Notice.connectionFailure,
               Event.disconnectedError]
      ∧ noticesOf (KRdpView.newEvents (sampleViewIn RemoteStatus.Connecting "")
          (sampleViewIn RemoteStatus.Connecting "").processDied) = [Notice.connectionFailure]
      ∧ (KRdpView.newEvents (sampleViewIn RemoteStatus.Connecting "")
          (sampleViewIn RemoteStatus.Connecting "").processDied).count
            Event.disconnectedError = 1 :=
  processDied_connecting_no_version (sampleViewIn RemoteStatus.Connecting "") rfl rfl

/-- C10, refuted as stated: when the process exits while the status is
Connected, `processDied` leaves the status Connected, emits nothing, and the
status is not Disconnected afterwards. -/
theorem processDied_connected_stays :
    ((sampleViewIn RemoteStatus.Connected "").processDied).m_status = RemoteStatus.Connected
      ∧ ((sampleViewIn RemoteStatus.Connected "").processDied).m_status
          ≠ RemoteStatus.Disconnected
      ∧ (sampleViewIn RemoteStatus.Connected "").processDied
          = sampleViewIn RemoteStatus.Connected "" := by
  decide

/-- C10, as amended: after `processDied` the status is Disconnected when it
was Connecting before; in every other status `processDied` changes nothing;
and the handler of the closed embedded window, `connectionClosed`, leaves the
status Disconnected from every status. -/
theorem processDied_status (v : KRdpView) :
    (v.m_status = RemoteStatus.Connecting →
        (v.processDied).m_status = RemoteStatus.Disconnected)
      ∧ (v.m_status ≠ RemoteStatus.Connecting → v.processDied = v)
      ∧ (v.connectionClosed).m_status = RemoteStatus.Disconnected := by
  refine ⟨fun h => (KRdpView.processDied_connecting v h).1,
    KRdpView.processDied_not_connecting v, ?_⟩
  simp [KRdpView.connectionClosed, KRdpView.setStatus, KRdpView.emit,
    KRemoteView.setStatus_eq, REMOTE_VIEW_DISCONNECTED, KRemoteView.transitionPath]

/-- Witness of C10 as amended: the sample view in Connecting and in
Preparing. -/
theorem processDied_status_witness :
    ((sampleViewIn RemoteStatus.Connecting "").processDied).m_status
        = RemoteStatus.Disconnected
      ∧ (sampleViewIn RemoteStatus.Preparing "").processDied
          = sampleViewIn RemoteStatus.Preparing "" :=
  ⟨(processDied_status (sampleViewIn RemoteStatus.Connecting "")).1 rfl,
   (processDied_status (sampleViewIn RemoteStatus.Preparing "")).2.1 (by decide)⟩

/-! ## Theorems: the resolution presets of the preferences page -/

/-- The size inputs and their labels are enabled by `updateWidthHeight`
exactly for the Custom preset. -/
theorem RdpHostPreferences.updateWidthHeight_enabled (screenSize : Int × Int)
    (p : RdpHostPreferences) (r : Resolution) :
    (p.updateWidthHeight screenSize r).rdpUi.kcfg_Width.enabled = decide (r = Resolution.Custom)
      ∧ (p.updateWidthHeight screenSize r).rdpUi.kcfg_Height.enabled
          = decide (r = Resolution.Custom)
      ∧ (p.updateWidthHeight screenSize r).rdpUi.widthLabel = decide (r = Resolution.Custom)
      ∧ (p.updateWidthHeight screenSize r).rdpUi.heightLabel
          = decide (r = Resolution.Custom) := by
  cases r <;> exact ⟨rfl, rfl, rfl, rfl⟩

/-- The Small preset is set as claimed: width 1280 and height 720. -/
theorem RdpHostPreferences.updateWidthHeight_Small (screenSize : Int × Int)
    (p : RdpHostPreferences) :
    (p.updateWidthHeight screenSize Resolution.Small).rdpUi.kcfg_Width.value = 1280
      ∧ (p.updateWidthHeight screenSize Resolution.Small).rdpUi.kcfg_Height.value = 720 :=
  ⟨rfl, rfl⟩

/-- C15, the code at the failing inputs: for every prior state of the form,
`updateWidthHeight` sets width 900 and height 1600 for Medium, and width 1080
and height 1920 for Large, so the width is below the height, where the claim
has width 1600 and height 900, and width 1920 and height 1080. -/
theorem updateWidthHeight_Medium_Large_swapped (screenSize : Int × Int)
    (p : RdpHostPreferences) :
    ((p.updateWidthHeight screenSize Resolution.Medium).rdpUi.kcfg_Width.value = 900
        ∧ (p.updateWidthHeight screenSize Resolution.Medium).rdpUi.kcfg_Height.value = 1600)
      ∧ ((p.updateWidthHeight screenSize Resolution.Large).rdpUi.kcfg_Width.value = 1080
        ∧ (p.updateWidthHeight screenSize Resolution.Large).rdpUi.kcfg_Height.value = 1920)
      ∧ ¬ ((p.updateWidthHeight screenSize Resolution.Medium).rdpUi.kcfg_Width.value
            > (p.updateWidthHeight screenSize Resolution.Medium).rdpUi.kcfg_Height.value)
      ∧ ¬ ((p.updateWidthHeight screenSize Resolution.Large).rdpUi.kcfg_Width.value
            > (p.updateWidthHeight screenSize Resolution.Large).rdpUi.kcfg_Height.value) := by
  refine ⟨⟨rfl, rfl⟩, ⟨rfl, rfl⟩, ?_, ?_⟩
  · show ¬ ((900 : Int) > 1600)
    decide
  · show ¬ ((1080 : Int) > 1920)
    decide

/-! ## Theorems: the resolution selector of the settings form -/

/-- The index `setResolution` selects, and what it does to the rest of the
form: the width and height are kept, and the size inputs and labels are
enabled exactly when the index is 5. -/
theorem RdpPrefs.setResolution_eq (f : RdpPrefs) :
    ∃ i : Int,
      (i = if f.rdpWidth = 640 ∧ f.rdpHeight = 480 then 0
           else if f.rdpWidth = 800 ∧ f.rdpHeight = 600 then 1
           else if f.rdpWidth = 1024 ∧ f.rdpHeight = 768 then 2
           else if f.rdpWidth = 1280 ∧ f.rdpHeight = 1024 then 3
           else if f.rdpWidth = 1600 ∧ f.rdpHeight = 1200 then 4
           else 5)
        ∧ f.setResolution =
            { f with
              spinWidth := { value := f.rdpWidth, enabled := decide (i = 5) }
              spinHeight := { value := f.rdpHeight, enabled := decide (i = 5) }
              widthLabel := decide (i = 5)
              heightLabel := decide (i = 5)
              cmbResolution := { f.cmbResolution with currentIndex := i } } := by
  refine ⟨_, rfl, ?_⟩
  unfold RdpPrefs.setResolution RdpPrefs.resolutionChanged
  by_cases h0 : f.rdpWidth = 640 ∧ f.rdpHeight = 480
  · simp only [if_pos h0]
    rw [h0.1, h0.2]
    rfl
  · by_cases h1 : f.rdpWidth = 800 ∧ f.rdpHeight = 600
    · simp only [if_neg h0, if_pos h1]
      rw [h1.1, h1.2]
      rfl
    · by_cases h2 : f.rdpWidth = 1024 ∧ f.rdpHeight = 768
      · simp only [if_neg h0, if_neg h1, if_pos h2]
        rw [h2.1, h2.2]
        rfl
      · by_cases h3 : f.rdpWidth = 1280 ∧ f.rdpHeight = 1024
        · simp only [if_neg h0, if_neg h1, if_neg h2, if_pos h3]
          rw [h3.1, h3.2]
          rfl
        · by_cases h4 : f.rdpWidth = 1600 ∧ f.rdpHeight = 1200
          · simp only [if_neg h0, if_neg h1, if_neg h2, if_neg h3, if_pos h4]
            rw [h4.1, h4.2]
            rfl
          · simp only [if_neg h0, if_neg h1, if_neg h2, if_neg h3, if_neg h4]
            rfl

/-- After `resolutionChanged i` with `i` from 0 to 4, `setResolution` selects
`i` again. -/
theorem RdpPrefs.setResolution_after_resolutionChanged (f : RdpPrefs) (i : Int)
    (h0 : 0 ≤ i) (h4 : i ≤ 4) :
    ((f.resolutionChanged i).setResolution).resolution = i := by
  have hi : i = 0 ∨ i = 1 ∨ i = 2 ∨ i = 3 ∨ i = 4 := by omega
  rcases hi with h | h | h | h | h <;> subst h <;> rfl

/-- C16: `setResolution` keeps the width and height of the form; it selects
index 0, 1, 2, 3 or 4 exactly when they are 640x480, 800x600, 1024x768,
1280x1024 or 1600x1200, and index 5 exactly when they are none of these; it
leaves the width and height inputs (and their labels) enabled exactly when
the selected index is 5; and after `resolutionChanged i` with `i` from 0 to 4
it makes `resolution` return `i`. -/
theorem setResolution_selects_preset (f : RdpPrefs) :
    (f.setResolution.rdpWidth = f.rdpWidth ∧ f.setResolution.rdpHeight = f.rdpHeight)
      ∧ (f.setResolution.resolution = 0 ↔ (f.rdpWidth = 640 ∧ f.rdpHeight = 480))
      ∧ (f.setResolution.resolution = 1 ↔ (f.rdpWidth = 800 ∧ f.rdpHeight = 600))
      ∧ (f.setResolution.resolution = 2 ↔ (f.rdpWidth = 1024 ∧ f.rdpHeight = 768))
      ∧ (f.setResolution.resolution = 3 ↔ (f.rdpWidth = 1280 ∧ f.rdpHeight = 1024))
      ∧ (f.setResolution.resolution = 4 ↔ (f.rdpWidth = 1600 ∧ f.rdpHeight = 1200))
      ∧ (f.setResolution.resolution = 5 ↔
          ¬ ((f.rdpWidth = 640 ∧ f.rdpHeight = 480) ∨ (f.rdpWidth = 800 ∧ f.rdpHeight = 600)
            ∨ (f.rdpWidth = 1024 ∧ f.rdpHeight = 768)
            ∨ (f.rdpWidth = 1280 ∧ f.rdpHeight = 1024)
            ∨ (f.rdpWidth = 1600 ∧ f.rdpHeight = 1200)))
      ∧ ((f.setResolution.spinWidth.enabled = true ↔ f.setResolution.resolution = 5)
        ∧ (f.setResolution.spinHeight.enabled = true ↔ f.setResolution.resolution = 5)
        ∧ (f.setResolution.widthLabel = true ↔ f.setResolution.resolution = 5)
        ∧ (f.setResolution.heightLabel = true ↔ f.setResolution.resolution = 5))
      ∧ ∀ i : Int, 0 ≤ i → i ≤ 4 →
          ((f.resolutionChanged i).setResolution).resolution = i := by
  obtain ⟨i, hi, heq⟩ := RdpPrefs.setResolution_eq f
  refine ⟨?_, ?_, ?_, ?_, ?_, ?_, ?_, ?_,
    RdpPrefs.setResolution_after_resolutionChanged f⟩
  · rw [heq]
    exact ⟨rfl, rfl⟩
  all_goals
    rw [heq]
    simp only [RdpPrefs.resolution, decide_eq_true_eq]
    split_ifs at hi with a0 a1 a2 a3 a4 <;> subst hi <;>
      first
        | (constructor <;> intro hx <;> omega)
        | simp_all

/-! ## Theorems: the way through `start` -/

/-- The first block of `start` returns early exactly on the rejected
settings dialog. -/
theorem KRdpView.startPreferences_rejected (env : StartEnv) (g : Globals) (v : KRdpView)
    (hg : g.rdpAppDataConfigured = false)
    (ha : (g.hostPrefs v.m_host).askOnConnect = true)
    (hr : (env.execPrefsDialog (KRdpView.startShownPrefs env (g.hostPrefs v.m_host))).1
            = false) :
    v.startPreferences env g = PrefsOutcome.rejected := by
  unfold KRdpView.startShownPrefs at hr
  unfold KRdpView.startPreferences
  simp only [hg, ha, hr, Bool.not_false, if_true]

/-- Whenever the first block of `start` goes on with a record, that record is
the one the file-level state then holds for the host, the wallet flag is the
one of the record, and the shared wallet is untouched. -/
theorem KRdpView.startPreferences_record (env : StartEnv) (g g1 : Globals) (v : KRdpView)
    (hp : RdpHostPref) (u : Bool)
    (h : v.startPreferences env g = PrefsOutcome.proceed (some hp) u g1) :
    g1.hostPrefs v.m_host = hp ∧ u = hp.useKWallet ∧ g1.wallet = g.wallet := by
  unfold KRdpView.startPreferences at h
  cases hg : g.rdpAppDataConfigured
  · simp only [hg, Bool.not_false, if_true] at h
    cases ha : (g.hostPrefs v.m_host).askOnConnect
    · simp only [ha, Bool.false_eq_true, if_false] at h
      injection h with h1 h2 h3
      injection h1 with h1
      subst h1 h2 h3
      exact ⟨rfl, rfl, rfl⟩
    · simp only [ha, if_true] at h
      split at h
      · cases h
      · injection h with h1 h2 h3
        injection h1 with h1
        subst h1 h2 h3
        simp
  · simp only [hg, Bool.not_true, Bool.false_eq_true, if_false] at h
    injection h with h1 h2 h3
    cases h1

/-- With a record at hand, `start` returns whether the process launched,
holds the process with exactly the listed arguments and the resolved
password, writes nothing to the records, and sets the status to Connecting
only when the launch succeeded. -/
theorem KRdpView.start_of_proceed_exact (env : StartEnv) (g g1 : Globals) (v : KRdpView)
    (hp : RdpHostPref) (u : Bool)
    (h : v.startPreferences env g = PrefsOutcome.proceed (some hp) u g1) :
    ∃ out : StartResult,
      v.start env g = some out
        ∧ out.returned = env.processStarts
        ∧ out.view.m_password = (KRdpView.startPassword env g1.wallet v.m_host v.m_password u).1
        ∧ out.view.m_process
            = some { args := specArgumentVector hp v.m_user out.view.m_password env.winId
                               v.m_host v.m_port,
                     started := env.processStarts }
        ∧ out.globals.hostPrefs = g1.hostPrefs
        ∧ out.globals.wallet
            = (KRdpView.startPassword env g1.wallet v.m_host v.m_password u).2
        ∧ (env.processStarts = true →
            out.view.toKRemoteView = v.toKRemoteView.setStatus RemoteStatus.Connecting)
        ∧ (env.processStarts = false →
            out.view.m_status = v.m_status
              ∧ out.view.trace = v.trace ++ [Event.messageBox Notice.launchFailure]) := by
  unfold KRdpView.start
  rw [h]
  cases hs : env.processStarts <;>
    by_cases hu : v.m_user = "" <;>
    by_cases hpw : (KRdpView.startPassword env g1.wallet v.m_host v.m_password u).1 = "" <;>
    simp [hu, hpw, KProcess.push, KRdpView.emit, KRdpView.setStatus, specArgumentVector,
      REMOTE_VIEW_CONNECTING]

/-- The first block of `start` goes on with a record when the preferences
are to be read and the settings dialog is not asked for, or is accepted on
the form shown. -/
theorem KRdpView.startPreferences_proceed_shown (env : StartEnv) (g : Globals)
    (v : KRdpView) (hg : g.rdpAppDataConfigured = false)
    (hd : (g.hostPrefs v.m_host).askOnConnect = false
            ∨ (env.execPrefsDialog
                (KRdpView.startShownPrefs env (g.hostPrefs v.m_host))).1 = true) :
    ∃ (hp : RdpHostPref) (u : Bool) (g1 : Globals),
      v.startPreferences env g = PrefsOutcome.proceed (some hp) u g1 := by
  unfold KRdpView.startShownPrefs at hd
  unfold KRdpView.startPreferences
  simp only [hg, Bool.not_false, if_true]
  cases ha : (g.hostPrefs v.m_host).askOnConnect
  · exact ⟨_, _, _, rfl⟩
  · rcases hd with hd | hd
    · rw [ha] at hd
      exact absurd hd (by decide)
    · simp only [hd, Bool.not_true, Bool.false_eq_true, if_false, if_true]
      exact ⟨_, _, _, rfl⟩

/-- When the password dialog is reached and dismissed, the password block
leaves the password empty. -/
theorem KRdpView.startPassword_dismissed (env : StartEnv) (wallet : Option Wallet)
    (m_host m_password : String) (u : Bool)
    (hshown : KRdpView.startPasswordDialogShown env wallet m_host m_password u = true)
    (hdis : env.execPasswordDialog = none) :
    (KRdpView.startPassword env wallet m_host m_password u).1 = "" := by
  unfold KRdpView.startPasswordDialogShown at hshown
  unfold KRdpView.startPassword
  split_ifs at hshown with h1
  rw [if_pos h1]
  simp only at hshown ⊢
  split at hshown
  · exact absurd hshown (by decide)
  · rename_i w hw
    by_cases h2 : w.isOpen = true
    · rw [if_pos h2] at hshown ⊢
      have h3 := of_decide_eq_true hshown
      rw [if_pos h3, hdis]
      exact h3
    · rw [if_neg h2] at hshown
      exact absurd hshown (by decide)

/-- Requesting Connecting leaves the status at Connecting, from any status. -/
theorem KRemoteView.setStatus_Connecting_status (v : KRemoteView) :
    (v.setStatus RemoteStatus.Connecting).m_status = RemoteStatus.Connecting := by
  rw [KRemoteView.setStatus_eq]
  obtain ⟨c, tr⟩ := v
  cases c <;> rfl

/-- C12: every process that `start` creates on a view without one has
exactly the argument vector of the specification, built from the record the
file-level state holds for the host after the call, the user, the resolved
password, the window identifier, the host and the port; and `start` does
create the process whenever the preferences are to be read and the settings
dialog is not asked for or is accepted. -/
theorem start_argument_vector (env : StartEnv) (g : Globals) (v : KRdpView) :
    (∀ (out : StartResult) (proc : KProcess),
        v.m_process = none → v.start env g = some out → out.view.m_process = some proc →
        proc.args
          = ["rdesktop", "-g",
              numberToString (out.globals.hostPrefs v.m_host).width ++ "x"
                ++ numberToString (out.globals.hostPrefs v.m_host).height,
              "-k", (out.globals.hostPrefs v.m_host).layout]
            ++ (if v.m_user ≠ "" then ["-u", v.m_user] else [])
            ++ (if out.view.m_password ≠ "" then ["-p", out.view.m_password] else [])
            ++ ["-X", "0x" ++ numberToHex env.winId,
                "-a", numberToString (out.globals.hostPrefs v.m_host).colorDepth,
                v.m_host ++ ":" ++ numberToString v.m_port])
      ∧ (g.rdpAppDataConfigured = false →
          ((g.hostPrefs v.m_host).askOnConnect = false
            ∨ (env.execPrefsDialog
                (KRdpView.startShownPrefs env (g.hostPrefs v.m_host))).1 = true) →
          ∃ (out : StartResult) (proc : KProcess),
            v.start env g = some out ∧ out.view.m_process = some proc
              ∧ proc.started = env.processStarts
              ∧ proc.args
                  = specArgumentVector (out.globals.hostPrefs v.m_host) v.m_user
                      out.view.m_password env.winId v.m_host v.m_port) := by
  constructor
  · intro out proc hv hs hproc
    cases hpre : v.startPreferences env g with
    | rejected =>
      rw [KRdpView.start_of_rejected env g v hpre] at hs
      cases hs
      rw [hv] at hproc
      cases hproc
    | proceed hp u g1 =>
      cases hp with
      | none =>
        rw [KRdpView.start_of_null env g g1 v u hpre] at hs
        cases hs
      | some hp =>
        obtain ⟨out1, h1, _, _, h4, h5, _⟩ :=
          KRdpView.start_of_proceed_exact env g g1 v hp u hpre
        rw [h1] at hs
        cases hs
        rw [h4] at hproc
        cases hproc
        rw [h5, (KRdpView.startPreferences_record env g g1 v hp u hpre).1]
        rfl
  · intro hg hd
    obtain ⟨hp, u, g1, hpre⟩ := KRdpView.startPreferences_proceed_shown env g v hg hd
    obtain ⟨out, h1, _, _, h4, h5, _⟩ :=
      KRdpView.start_of_proceed_exact env g g1 v hp u hpre
    refine ⟨out, _, h1, h4, rfl, ?_⟩
    rw [h5, (KRdpView.startPreferences_record env g g1 v hp u hpre).1]

/-- Witness of C12: the view of user "alice" on host "test", launched with
the sample record and window identifier 255, no password being resolved. -/
theorem start_argument_vector_witness :
    ∃ (out : StartResult) (proc : KProcess),
      sampleUserView.start sampleEnv sampleGlobals = some out
        ∧ out.view.m_process = some proc
        ∧ proc.started = true
        ∧ proc.args
            = specArgumentVector (out.globals.hostPrefs "test") "alice"
                out.view.m_password 255 "test" 3389
        ∧ proc.args
            = ["rdesktop", "-g", "800x600", "-k", "de", "-u", "alice",
               "-X", "0xff", "-a", "16", "test:3389"] := by
  obtain ⟨out, proc, h1, h2, h3, h4⟩ :=
    (start_argument_vector sampleEnv sampleGlobals sampleUserView).2 rfl (Or.inl rfl)
  refine ⟨out, proc, h1, h2, h3, h4, ?_⟩
  have hall : (sampleUserView.start sampleEnv sampleGlobals).bind
      (fun o => o.view.m_process.map KProcess.args)
      = some ["rdesktop", "-g", "800x600", "-k", "de", "-u", "alice",
              "-X", "0xff", "-a", "16", "test:3389"] := by
    decide
  rw [h1, Option.some_bind, h2] at hall
  exact Option.some.inj hall

/-- C13, refuted as stated: with the wallet in use and open and no stored
password, `start` shows the password dialog; when the user dismisses it,
`start` still returns true, the process is started (without a password
argument) and the status is set to Connecting. -/
theorem start_password_dismissed_goes_on :
    KRdpView.startShowsPasswordDialog sampleEnv sampleWalletGlobals sampleUserView = true
      ∧ sampleEnv.execPasswordDialog = none
      ∧ (sampleUserView.start sampleEnv sampleWalletGlobals).map
          (fun o => (o.returned, o.view.m_process, o.view.m_status))
          = some (true,
              some { args := ["rdesktop", "-g", "800x600", "-k", "de", "-u", "alice",
                              "-X", "0xff", "-a", "16", "test:3389"],
                     started := true },
              RemoteStatus.Connecting) := by
  decide

/-- C13, as amended: when the user dismisses the password dialog shown by
`start`, the attempt goes on without a password: the password stays empty,
the process is created with the argument vector that has no password part,
`start` returns whether the launch succeeded, and when it did the status is
Connecting. -/
theorem start_password_dismissed (env : StartEnv) (g : Globals) (v : KRdpView)
    (hshown : KRdpView.startShowsPasswordDialog env g v = true)
    (hdis : env.execPasswordDialog = none) :
    ∃ (out : StartResult) (proc : KProcess),
      v.start env g = some out
        ∧ out.returned = env.processStarts
        ∧ out.view.m_password = ""
        ∧ out.view.m_process = some proc
        ∧ proc.started = env.processStarts
        ∧ proc.args
            = ["rdesktop", "-g",
                numberToString (out.globals.hostPrefs v.m_host).width ++ "x"
                  ++ numberToString (out.globals.hostPrefs v.m_host).height,
                "-k", (out.globals.hostPrefs v.m_host).layout]
              ++ (if v.m_user ≠ "" then ["-u", v.m_user] else [])
              ++ ["-X", "0x" ++ numberToHex env.winId,
                  "-a", numberToString (out.globals.hostPrefs v.m_host).colorDepth,
                  v.m_host ++ ":" ++ numberToString v.m_port]
        ∧ (env.processStarts = true → out.view.m_status = RemoteStatus.Connecting) := by
  unfold KRdpView.startShowsPasswordDialog at hshown
  cases hpre : v.startPreferences env g with
  | rejected =>
    rw [hpre] at hshown
    exact absurd hshown Bool.false_ne_true
  | proceed hp u g1 =>
    cases hp with
    | none =>
      rw [hpre] at hshown
      exact absurd hshown Bool.false_ne_true
    | some hp =>
      rw [hpre] at hshown
      have hpw := KRdpView.startPassword_dismissed env g1.wallet v.m_host v.m_password u
        hshown hdis
      obtain ⟨out, h1, h2, h3, h4, h5, _, h7, _⟩ :=
        KRdpView.start_of_proceed_exact env g g1 v hp u hpre
      rw [hpw] at h3
      refine ⟨out, _, h1, h2, h3, h4, rfl, ?_, ?_⟩
      · rw [h5, (KRdpView.startPreferences_record env g g1 v hp u hpre).1, h3]
        simp [specArgumentVector]
      · intro hs
        have h8 := congrArg KRemoteView.m_status (h7 hs)
        rw [KRemoteView.setStatus_Connecting_status] at h8
        exact h8

/-- Witness of C13 as amended: the view of user "alice" with the open sample
wallet and the password dialog dismissed. -/
theorem start_password_dismissed_witness :
    ∃ (out : StartResult) (proc : KProcess),
      sampleUserView.start sampleEnv sampleWalletGlobals = some out
        ∧ out.returned = true
        ∧ out.view.m_password = ""
        ∧ out.view.m_process = some proc
        ∧ proc.started = true
        ∧ proc.args
            = ["rdesktop", "-g",
                numberToString (out.globals.hostPrefs "test").width ++ "x"
                  ++ numberToString (out.globals.hostPrefs "test").height,
                "-k", (out.globals.hostPrefs "test").layout]
              ++ ["-u", "alice"]
              ++ ["-X", "0x" ++ numberToHex 255,
                  "-a", numberToString (out.globals.hostPrefs "test").colorDepth,
                  "test" ++ ":" ++ numberToString 3389]
        ∧ (true = true → out.view.m_status = RemoteStatus.Connecting) :=
  start_password_dismissed sampleEnv sampleWalletGlobals sampleUserView (by decide) rfl

/-- C14: when the settings dialog that `start` shows is rejected, `start`
returns false and leaves everything as it was: the view (so no process is
created, the status is untouched and nothing is emitted), the host
preference records and the wallet. -/
theorem start_settings_rejected (env : StartEnv) (g : Globals) (v : KRdpView)
    (hg : g.rdpAppDataConfigured = false)
    (ha : (g.hostPrefs v.m_host).askOnConnect = true)
    (hr : (env.execPrefsDialog (KRdpView.startShownPrefs env (g.hostPrefs v.m_host))).1
            = false) :
    ∃ out : StartResult,
      v.start env g = some out
        ∧ out.returned = false
        ∧ out.view = v
        ∧ out.globals.hostPrefs = g.hostPrefs
        ∧ out.globals.wallet = g.wallet
        ∧ out.view.m_process = v.m_process
        ∧ out.view.m_status = v.m_status
        ∧ out.view.trace = v.trace :=
  ⟨_, KRdpView.start_of_rejected env g v
        (KRdpView.startPreferences_rejected env g v hg ha hr),
    rfl, rfl, rfl, rfl, rfl, rfl, rfl⟩

/-- Witness of C14: the sample view with the asking record and a user who
rejects the settings dialog. -/
theorem start_settings_rejected_witness :
    ∃ out : StartResult,
      sampleUserView.start sampleRejectingEnv sampleAskingGlobals = some out
        ∧ out.returned = false
        ∧ out.view = sampleUserView
        ∧ out.globals.hostPrefs = sampleAskingGlobals.hostPrefs
        ∧ out.globals.wallet = sampleAskingGlobals.wallet
        ∧ out.view.m_process = sampleUserView.m_process
        ∧ out.view.m_status = sampleUserView.m_status
        ∧ out.view.trace = sampleUserView.trace :=
  start_settings_rejected sampleRejectingEnv sampleAskingGlobals sampleUserView rfl rfl rfl

/-- Witness of C16: a form holding 800x600 selects index 1, and after
`resolutionChanged 2` index 2 is selected. -/
theorem setResolution_selects_preset_witness :
    ((sampleRdpPrefs.setRdpWidth 800).setRdpHeight 600).setResolution.resolution = 1
      ∧ ((sampleRdpPrefs.resolutionChanged 2).setResolution).resolution = 2 :=
  ⟨(setResolution_selects_preset ((sampleRdpPrefs.setRdpWidth 800).setRdpHeight 600)).2.2.1.mpr
      ⟨rfl, rfl⟩,
   (setResolution_selects_preset sampleRdpPrefs).2.2.2.2.2.2.2.2 2 (by decide) (by decide)⟩

/-! ## Theorems: the diagnostic output -/

/-- A text built from a list of characters is empty exactly when the list
is. -/
theorem string_mk_eq_empty (l : List Char) : String.mk l = "" ↔ l = [] := by
  constructor
  · intro h
    exact congrArg String.data h
  · intro h
    subst h
    rfl

/-- The field numbered `i` of a buffer is the line numbered `i`, or the empty
text past the last line. -/
theorem stringSection_newline (buffer : String) (i : Nat) :
    stringSection buffer '\n' i = (specLines buffer).getD i "" := by
  unfold stringSection specLines
  generalize splitFields '\n' buffer.toList = fs
  induction fs generalizing i with
  | nil => rfl
  | cons f fs ih =>
    cases i with
    | zero => rfl
    | succ i => simp [ih i]

/-- The extraction in `receivedStderr` is the one the specification words:
the second space-separated field without its last character. -/
theorem stringLeft_section_eq (line : String) :
    stringLeft (stringSection line ' ' 1)
        (Int.ofNat (stringSection line ' ' 1).toList.length - 1)
      = specVersionOfLine line := by
  unfold specVersionOfLine stringSection stringLeft
  generalize (splitFields ' ' line.toList).getD 1 [] = f
  show (if Int.ofNat f.length - 1 < 0 ∨ Int.ofNat f.length - 1 ≥ Int.ofNat f.length
      then String.mk f else String.mk (f.take (Int.ofNat f.length - 1).toNat)) = _
  cases f with
  | nil => rfl
  | cons c cs =>
    have hc : ¬ (Int.ofNat (c :: cs).length - 1 < 0
        ∨ Int.ofNat (c :: cs).length - 1 ≥ Int.ofNat (c :: cs).length) := by
      simp only [List.length_cons, Int.ofNat_eq_coe]
      omega
    rw [if_neg hc]
    congr 1
    rw [List.dropLast_eq_take]
    congr 1
    simp only [List.length_cons, Int.ofNat_eq_coe]
    omega

/-- With enough rounds the loop of `receivedStderr` entered at line `i` is
the scan of the lines from `i` on; rounds beyond the number of lines left
plus one are never used. -/
theorem KRdpView.receivedStderrLoop_eq_scan (buffer cv : String) (fuel i : Nat)
    (h : (specLines buffer).length - i < fuel) :
    KRdpView.receivedStderrLoop buffer cv fuel i
      = scanLines cv ((specLines buffer).drop i) := by
  induction fuel generalizing i with
  | zero => exact absurd h (Nat.not_lt_zero _)
  | succ fuel ih =>
    unfold KRdpView.receivedStderrLoop
    simp only [stringSection_newline, stringLeft_section_eq]
    by_cases hi : i < (specLines buffer).length
    · have hd : (specLines buffer).drop i
          = (specLines buffer).getD i "" :: (specLines buffer).drop (i + 1) := by
        rw [List.getD_eq_getElem _ _ hi]
        exact List.drop_eq_getElem_cons hi
      rw [hd]
      unfold scanLines
      rw [ih (i + 1) (by omega)]
    · have hlen : (specLines buffer).length ≤ i := Nat.le_of_not_lt hi
      rw [List.drop_of_length_le hlen, List.getD_eq_default _ _ hlen]
      rfl

/-- What `receivedStderr` does: the stored version becomes the scan of the
lines of the buffer, and nothing else in the view changes. -/
theorem KRdpView.receivedStderr_eq_scan (v : KRdpView) (buffer : String) :
    v.receivedStderr buffer
      = { v with m_clientVersion := scanLines v.m_clientVersion (specLines buffer) } := by
  unfold KRdpView.receivedStderr
  simp only
  rw [KRdpView.receivedStderrLoop_eq_scan buffer v.m_clientVersion _ 0
    (by unfold specLines; simp), List.drop_zero]

/-- A scan over lines none of which starts with the marker returns the
stored version. -/
theorem scanLines_no_marker (cv : String) (lines : List String)
    (h : ∀ l ∈ lines, stringStartsWith l "Version " = false) :
    scanLines cv lines = cv := by
  induction lines with
  | nil => rfl
  | cons l ls ih =>
    unfold scanLines
    by_cases he : l = ""
    · rw [if_pos he]
    · rw [if_neg he, h l (List.mem_cons_self l ls)]
      simp only [Bool.false_eq_true, if_false]
      exact ih (fun x hx => h x (List.mem_cons_of_mem l hx))

/-- A scan returns the version of the first marker line when no empty line
comes before it. -/
theorem scanLines_first_marker (cv : String) (front back : List String) (l : String)
    (hfront : ∀ x ∈ front, x ≠ "" ∧ stringStartsWith x "Version " = false)
    (hl : stringStartsWith l "Version " = true) :
    scanLines cv (front ++ l :: back) = specVersionOfLine l := by
  induction front with
  | nil =>
    have hne : l ≠ "" := by
      intro he
      rw [he] at hl
      exact absurd hl (by decide)
    show scanLines cv (l :: back) = _
    unfold scanLines
    rw [if_neg hne, if_pos hl]
  | cons x xs ih =>
    have hx := hfront x (List.mem_cons_self x xs)
    show scanLines cv (x :: (xs ++ l :: back)) = _
    unfold scanLines
    rw [if_neg hx.1, hx.2]
    simp only [Bool.false_eq_true, if_false]
    exact ih (fun y hy => hfront y (List.mem_cons_of_mem x hy))

/-- What holds of `receivedStderr` for every buffer: without a marker line
the stored version is unchanged; with a first marker line that no empty line
precedes, the stored version is set from that line; and when an empty line
precedes every marker line, the stored version is unchanged. -/
theorem KRdpView.receivedStderr_version (v : KRdpView) (buffer : String) :
    ((∀ l ∈ specLines buffer, stringStartsWith l "Version " = false) →
        (v.receivedStderr buffer).m_clientVersion = v.m_clientVersion)
      ∧ (∀ (front back : List String) (l : String),
          specLines buffer = front ++ l :: back →
          (∀ x ∈ front, x ≠ "" ∧ stringStartsWith x "Version " = false) →
          stringStartsWith l "Version " = true →
          (v.receivedStderr buffer).m_clientVersion = specVersionOfLine l)
      ∧ (∀ (front back : List String),
          specLines buffer = front ++ "" :: back →
          (∀ x ∈ front, stringStartsWith x "Version " = false) →
          (v.receivedStderr buffer).m_clientVersion = v.m_clientVersion) := by
  rw [KRdpView.receivedStderr_eq_scan]
  refine ⟨fun h => scanLines_no_marker _ _ h, ?_, ?_⟩
  · intro front back l hsplit hfront hl
    show scanLines v.m_clientVersion (specLines buffer) = _
    rw [hsplit]
    exact scanLines_first_marker _ front back l hfront hl
  · intro front back hsplit hfront
    show scanLines v.m_clientVersion (specLines buffer) = _
    rw [hsplit]
    clear hsplit
    induction front with
    | nil => rfl
    | cons x xs ih =>
      show scanLines v.m_clientVersion (x :: (xs ++ "" :: back)) = _
      unfold scanLines
      by_cases he : x = ""
      · rw [if_pos he]
      · rw [if_neg he, hfront x (List.mem_cons_self x xs)]
        simp only [Bool.false_eq_true, if_false]
        exact ih (fun y hy => hfront y (List.mem_cons_of_mem x hy))

/-- C11, the code at the failing input: the buffer has the lines "ERROR:
failed", the empty line, "Version 1.4.0. Copyright" and a last empty piece;
its third line starts with the marker and would give version "1.4.0"; yet
`receivedStderr` leaves the stored version as it was (here empty), because
its loop ends at the empty second line. Without the empty line the version is
set. -/
theorem receivedStderr_stops_at_empty_line :
    specLines "ERROR: failed\n\nVersion 1.4.0. Copyright\n"
        = ["ERROR: failed", "", "Version 1.4.0. Copyright", ""]
      ∧ stringStartsWith "Version 1.4.0. Copyright" "Version " = true
      ∧ specVersionOfLine "Version 1.4.0. Copyright" = "1.4.0"
      ∧ ((sampleViewIn RemoteStatus.Connecting "").receivedStderr
            "ERROR: failed\n\nVersion 1.4.0. Copyright\n").m_clientVersion = ""
      ∧ ((sampleViewIn RemoteStatus.Connecting "").receivedStderr
            "ERROR: failed\nVersion 1.4.0. Copyright\n").m_clientVersion = "1.4.0" := by
  decide

end KRDC
